import Mathlib

/-!
# kasir-api: checkout, daily summary and the in-memory product/category stores

A shallow embedding of

* `repositories/transaction_repository.go` (`CreateTransaction`, `GetSummaryToday`,
  `GetBestSellerToday`),
* `handlers/transaction_handler.go` (`SummaryToday`),
* `main.go` (the in-memory product and category handlers).

Modelling conventions.

* Go `int` is the 64-bit two's-complement integer: Go-side `*` and `+` are `mulInt` and
  `addInt`, which wrap (`wrapInt`).
* The relational store is a record of three tables, each a list of rows in storage order.
  SQL arithmetic (`stock - $1`, `SUM`) is exact; a statement that the real store would
  reject (lost connection, deadline, out-of-range value, ...) is a *fault*, supplied by the
  environment record of the call together with the values the store assigns itself
  (serial ids, `created_at`).
* A database transaction is a working copy of the tables: `Commit` publishes it, every
  error path leaves the tables as they were (`defer tx.Rollback()`).
* Columns are taken as `NOT NULL`; `created_at` is a local timestamp in microseconds and
  `CURRENT_DATE` a day number; `ORDER BY p.name` compares names by code point.
-/

namespace Kasir

/-! ## Go integers -/

/-- Two's-complement wrap of a mathematical integer into the range of Go's 64-bit `int`. -/
def wrapInt (x : Int) : Int := (x + 2 ^ 63) % 2 ^ 64 - 2 ^ 63

/-- Go `a * b` on `int`. -/
def mulInt (a b : Int) : Int := wrapInt (a * b)

/-- Go `a + b` on `int`. -/
def addInt (a b : Int) : Int := wrapInt (a + b)

/-- The value is representable as a Go `int`. -/
def InInt (x : Int) : Prop := -(2 ^ 63) ≤ x ∧ x < 2 ^ 63

instance (x : Int) : Decidable (InInt x) := by unfold InInt; infer_instance

/-! ## Errors -/

/-- Errors returned by the repository layer. -/
inductive Err where
  /-- Error `fmt.Errorf("product id %d not found", id)`. -/
  | productNotFound (id : Int)
  /-- An error handed back by `database/sql` (other than `sql.ErrNoRows`). -/
  | driver (msg : String)
  /-- Error `fmt.Errorf(pfx + ": %w", cause)`. -/
  | wrap (pfx : String) (cause : Err)
deriving DecidableEq, Repr

/-- The text of `err.Error()`. -/
def Err.message : Err → String
  | .productNotFound id => "product id " ++ toString id ++ " not found"
  | .driver msg => msg
  | .wrap pfx cause => pfx ++ ": " ++ cause.message

/-! ## Persisted schema -/

/-- A row of table `product`. -/
structure ProductRow where
  id : Int
  name : String
  price : Int
  stock : Int
  category_id : Option Int
deriving DecidableEq, Repr

/-- A row of table `transactions`. -/
structure TransactionRow where
  id : Int
  total_amount : Int
  created_at : Int
deriving DecidableEq, Repr

/-- A row of table `transaction_details`. -/
structure TransactionDetailRow where
  id : Int
  transaction_id : Int
  product_id : Int
  quantity : Int
  subtotal : Int
deriving DecidableEq, Repr

/-- The contents of the relational store. -/
structure Tables where
  product : List ProductRow
  transactions : List TransactionRow
  transaction_details : List TransactionDetailRow
deriving DecidableEq, Repr

/-! ## Domain models (package `models`, as used by the repository) -/

/-- One requested line of a checkout: `models.CheckoutItem`. -/
structure CheckoutItem where
  ProductID : Int
  Quantity : Int
deriving DecidableEq, Repr

/-- A line of a recorded sale: `models.TransactionDetail`. -/
structure TransactionDetail where
  ID : Int
  TransactionID : Int
  ProductID : Int
  ProductName : String
  Quantity : Int
  Subtotal : Int
deriving DecidableEq, Repr

/-- A recorded sale: `models.Transaction`. -/
structure Transaction where
  ID : Int
  TotalAmount : Int
  Details : List TransactionDetail
deriving DecidableEq, Repr

/-! ## Checkout write path -/

/-- What the store contributes to one `CreateTransaction` call: the fault (if any) of each
statement, and the values it assigns itself. Statements inside the item loop are indexed by
the position of the item. -/
structure TxEnv where
  beginErr : Option String
  selectErr : Nat → Option String
  updateErr : Nat → Option String
  insertHeaderErr : Option String
  insertDetailsErr : Option String
  commitErr : Option String
  /-- The id the store assigns to the new `transactions` row (`RETURNING ID`). -/
  transactionID : Int
  /-- The `created_at` the store assigns to the new `transactions` row. -/
  createdAt : Int
  /-- The id the store assigns to the k-th inserted `transaction_details` row. -/
  detailID : Nat → Int

/-- Statement `SELECT id, name, price, stock FROM product WHERE id=$1` read with `QueryRow`:
the first matching row, or `none` for `sql.ErrNoRows`. -/
def selectProduct (product : List ProductRow) (id : Int) : Option ProductRow :=
  product.find? (fun p => decide (p.id = id))

/-- Statement `UPDATE product SET stock = stock - $1 WHERE id = $2`. -/
def updateStock (product : List ProductRow) (quantity id : Int) : List ProductRow :=
  product.map (fun p => if p.id = id then { p with stock := p.stock - quantity } else p)

/-- State of the item loop of `CreateTransaction`: the product table as seen inside the
database transaction, `totalAmount` and `details`. -/
structure LoopState where
  product : List ProductRow
  totalAmount : Int
  details : List TransactionDetail
deriving DecidableEq, Repr

/-- The body of `for _, item := range items`, for the item at position `i`. -/
def checkoutStep (env : TxEnv) (i : Nat) (item : CheckoutItem) (s : LoopState) :
    Except Err LoopState :=
  match env.selectErr i with
  | some e => .error (.driver e)
  | none =>
    match selectProduct s.product item.ProductID with
    | none => .error (.productNotFound item.ProductID)
    | some row =>
      let subtotal := mulInt item.Quantity row.price
      let totalAmount := addInt s.totalAmount subtotal
      match env.updateErr i with
      | some e => .error (.driver e)
      | none =>
        .ok { product := updateStock s.product item.Quantity row.id
              totalAmount := totalAmount
              details := s.details ++
                [{ ID := 0, TransactionID := 0, ProductID := row.id, ProductName := row.name,
                   Quantity := item.Quantity, Subtotal := subtotal }] }

/-- The item loop of `CreateTransaction`, from position `i` on. -/
def checkoutLoop (env : TxEnv) : Nat → List CheckoutItem → LoopState → Except Err LoopState
  | _, [], s => .ok s
  | i, item :: rest, s =>
    match checkoutStep env i item s with
    | .error e => .error e
    | .ok s1 => checkoutLoop env (i + 1) rest s1

/-- Loop `for i := range details { details[i].TransactionID = transactionID }`. -/
def stampDetails (transactionID : Int) (details : List TransactionDetail) :
    List TransactionDetail :=
  details.map (fun d => { d with TransactionID := transactionID })

/-- Number of columns per inserted row (`const cols = 4`). -/
def cols : Nat := 4

/-- The placeholder numbers of the value tuple written for the detail at position `i`:
`base := i*cols + 1`, then `($base,$base+1,$base+2,$base+3)`. -/
def bulkTuple (i : Nat) : List Nat :=
  let base := i * cols + 1
  [base, base + 1, base + 2, base + 3]

/-- The value tuples of the bulk insert statement, one per detail, in order. -/
def bulkTuples (details : List TransactionDetail) : List (List Nat) :=
  (List.range details.length).map bulkTuple

/-- The argument list of the bulk insert statement. -/
def bulkArgs (transactionID : Int) (details : List TransactionDetail) : List Int :=
  details.foldl (fun args d => args ++ [transactionID, d.ProductID, d.Quantity, d.Subtotal]) []

/-- The text of the bulk insert statement. -/
def bulkStatement (details : List TransactionDetail) : String :=
  "INSERT INTO transaction_details (transaction_id, product_id, quantity, subtotal) VALUES " ++
    String.intercalate ","
      ((bulkTuples details).map (fun t =>
        "(" ++ String.intercalate "," (t.map (fun k => "$" ++ toString k)) ++ ")"))

/-- The text written for the detail at position `i`: a separating comma when `i > 0`, then
`fmt.Sprintf("($%d,$%d,$%d,$%d)", base, base+1, base+2, base+3)` with `base := i*cols + 1`. -/
def bulkChunk (i : Nat) : String :=
  let base := i * cols + 1
  (if 0 < i then "," else "") ++
    ("($" ++ toString base ++ ",$" ++ toString (base + 1) ++ ",$" ++ toString (base + 2) ++
      ",$" ++ toString (base + 3) ++ ")")

/-- The loop `for i, d := range details` of the bulk insert builder, from position `i` on,
acting on the string builder `sb` and the argument slice `args`. -/
def bulkInsertLoop (transactionID : Int) :
    Nat → List TransactionDetail → String × List Int → String × List Int
  | _, [], acc => acc
  | i, d :: rest, (sb, args) =>
    bulkInsertLoop transactionID (i + 1) rest
      (sb ++ bulkChunk i, args ++ [transactionID, d.ProductID, d.Quantity, d.Subtotal])

/-- The bulk insert builder of `CreateTransaction`: the statement text `sb.String()` and the
argument list `args`. -/
def bulkInsertBuild (transactionID : Int) (details : List TransactionDetail) :
    String × List Int :=
  bulkInsertLoop transactionID 0 details
    ("INSERT INTO transaction_details (transaction_id, product_id, quantity, subtotal) VALUES ",
     [])

/-- The value bound to placeholder `$k`. -/
def placeholder (args : List Int) (k : Nat) : Option Int :=
  if k = 0 then none else args.get? (k - 1)

/-- The row a value tuple `(transaction_id, product_id, quantity, subtotal)` inserts, with
the id the store assigns to it; `none` when the tuple is malformed or names a placeholder
without argument. -/
def tupleRow (args : List Int) (id : Int) (tuple : List Nat) : Option TransactionDetailRow :=
  match tuple with
  | [a, b, c, d] =>
    match placeholder args a, placeholder args b, placeholder args c, placeholder args d with
    | some ta, some pr, some q, some s =>
      some { id := id, transaction_id := ta, product_id := pr, quantity := q, subtotal := s }
    | _, _, _, _ => none
  | _ => none

/-- The rows inserted by `INSERT INTO transaction_details (...) VALUES tuples` with `args`;
the k-th row gets id `detailID k`. -/
def execBulkInsert (detailID : Nat → Int) (tuples : List (List Nat)) (args : List Int) :
    Option (List TransactionDetailRow) :=
  (tuples.enum.map (fun kt => tupleRow args (detailID kt.1) kt.2)).allSome

/-- The unit of work of `CreateTransaction` between `Begin` and `Commit`: the returned
transaction and the tables to publish. -/
def createTransactionTx (env : TxEnv) (db : Tables) (items : List CheckoutItem) :
    Except Err (Transaction × Tables) :=
  match checkoutLoop env 0 items { product := db.product, totalAmount := 0, details := [] } with
  | .error e => .error e
  | .ok s =>
    match env.insertHeaderErr with
    | some e => .error (.driver e)
    | none =>
      let transactionID := env.transactionID
      let transactions := db.transactions ++
        [{ id := transactionID, total_amount := s.totalAmount, created_at := env.createdAt }]
      if 0 < s.details.length then
        let details := stampDetails transactionID s.details
        match env.insertDetailsErr with
        | some e => .error (.wrap "bulk insert transaction_details" (.driver e))
        | none =>
          match execBulkInsert env.detailID (bulkTuples details)
              (bulkArgs transactionID details) with
          | none =>
            .error (.wrap "bulk insert transaction_details" (.driver "bind message mismatch"))
          | some rows =>
            .ok ({ ID := transactionID, TotalAmount := s.totalAmount, Details := details },
                 { product := s.product, transactions := transactions,
                   transaction_details := db.transaction_details ++ rows })
      else
        .ok ({ ID := transactionID, TotalAmount := s.totalAmount, Details := s.details },
             { product := s.product, transactions := transactions,
               transaction_details := db.transaction_details })

/-- Method `TransactionRepository.CreateTransaction`: the result and the tables after the call. -/
def CreateTransaction (env : TxEnv) (db : Tables) (items : List CheckoutItem) :
    Except Err Transaction × Tables :=
  match env.beginErr with
  | some e => (.error (.driver e), db)
  | none =>
    match createTransactionTx env db items with
    | .error e => (.error e, db)
    | .ok (t, published) =>
      match env.commitErr with
      | some e => (.error (.driver e), db)
      | none => (.ok t, published)

/-- An environment in which the store raises no fault. -/
def TxEnv.quiet (transactionID createdAt : Int) : TxEnv where
  beginErr := none
  selectErr := fun _ => none
  updateErr := fun _ => none
  insertHeaderErr := none
  insertDetailsErr := none
  commitErr := none
  transactionID := transactionID
  createdAt := createdAt
  detailID := fun k => Int.ofNat k + 1

/-! ## Summary read path -/

/-- Microseconds in `INTERVAL '1 day'`. -/
def usPerDay : Int := 86400000000

/-- Value of `CURRENT_DATE` (a day number) as a timestamp: midnight at the start of that day. -/
def startOfDay (currentDate : Int) : Int := currentDate * usPerDay

/-- The filter `t.created_at >= CURRENT_DATE AND t.created_at < CURRENT_DATE + INTERVAL '1 day'`. -/
def inToday (currentDate : Int) (t : TransactionRow) : Bool :=
  decide (startOfDay currentDate ≤ t.created_at) &&
    decide (t.created_at < startOfDay currentDate + usPerDay)

/-- SQL `SUM` over a column: `NULL` (`none`) over no rows. -/
def sqlSum (values : List Int) : Option Int :=
  match values with
  | [] => none
  | _ => some values.sum

/-- SQL `COALESCE(x, d)`. -/
def coalesce (x : Option Int) (d : Int) : Int :=
  match x with
  | some v => v
  | none => d

/-- The single row of
`SELECT COALESCE(SUM(t.total_amount), 0), COUNT(*) FROM transactions t WHERE ...today...`. -/
def querySummary (db : Tables) (currentDate : Int) : Int × Int :=
  let rows := db.transactions.filter (inToday currentDate)
  (coalesce (sqlSum (rows.map (fun t => t.total_amount))) 0, Int.ofNat rows.length)

/-- The rows of
`transaction_details td JOIN transactions t ON t.id = td.transaction_id
 JOIN product p ON p.id = td.product_id WHERE ...today...`, projected on
`(p.name, td.quantity)`. -/
def soldToday (db : Tables) (currentDate : Int) : List (String × Int) :=
  db.transaction_details.flatMap (fun td =>
    (db.transactions.filter
        (fun t => decide (t.id = td.transaction_id) && inToday currentDate t)).flatMap (fun _ =>
      (db.product.filter (fun p => decide (p.id = td.product_id))).map
        (fun p => (p.name, td.quantity))))

/-- The quantity `SUM(td.quantity)` of the group of `name`. -/
def groupQty (rows : List (String × Int)) (name : String) : Int :=
  ((rows.filter (fun r => decide (r.1 = name))).map (fun r => r.2)).sum

/-- Clause `GROUP BY p.name` with `SUM(td.quantity)`: one row per distinct name. -/
def groupByName (rows : List (String × Int)) : List (String × Int) :=
  (rows.map (fun r => r.1)).dedup.map (fun name => (name, groupQty rows name))

/-- Clause `ORDER BY qty_terjual DESC, p.name ASC`: row `a` may stand before row `b`. Names are
compared character by character, by code point. -/
def bestOrder (a b : String × Int) : Prop :=
  b.2 < a.2 ∨ (a.2 = b.2 ∧ a.1.toList ≤ b.1.toList)

instance : DecidableRel bestOrder := fun a b => by unfold bestOrder; infer_instance

/-- The best-seller query (`GROUP BY ... ORDER BY ... LIMIT 1`) read with `QueryRow`:
the top row, or `none` for `sql.ErrNoRows`. -/
def queryBestSeller (db : Tables) (currentDate : Int) : Option (String × Int) :=
  ((groupByName (soldToday db currentDate)).insertionSort bestOrder).head?

/-- Product as it appears in a summary: `models.Product`, of which only `Name` is set. -/
structure Product where
  Name : String
deriving DecidableEq, Repr

/-- Result of `GetSummaryToday`: `models.SummaryToday`. -/
structure SummaryToday where
  TotalRevenue : Int
  TotalTransaksi : Int
  ProdukTerlaris : Product
deriving DecidableEq, Repr

/-- What the store contributes to one summary request: the fault (if any) of each of the
three queries the request issues, in order. -/
structure SummaryEnv where
  /-- Fault of the revenue/count query of `GetSummaryToday`. -/
  summaryErr : Option String
  /-- Fault of the best-seller query inside `GetSummaryToday`. -/
  summaryBestErr : Option String
  /-- Fault of the query of `GetBestSellerToday`. -/
  bestSellerErr : Option String

/-- Method `TransactionRepository.GetSummaryToday`. -/
def GetSummaryToday (env : SummaryEnv) (db : Tables) (currentDate : Int) :
    Except Err SummaryToday :=
  match env.summaryErr with
  | some e => .error (.wrap "query summary today" (.driver e))
  | none =>
    let (totalRevenue, totalTransaksi) := querySummary db currentDate
    match env.summaryBestErr with
    | some e => .error (.wrap "query produk terlaris today" (.driver e))
    | none =>
      match queryBestSeller db currentDate with
      | none =>
        .ok { TotalRevenue := totalRevenue, TotalTransaksi := totalTransaksi,
              ProdukTerlaris := { Name := "" } }
      | some (bestName, _) =>
        .ok { TotalRevenue := totalRevenue, TotalTransaksi := totalTransaksi,
              ProdukTerlaris := { Name := bestName } }

/-- Method `TransactionRepository.GetBestSellerToday`: name, quantity and error. -/
def GetBestSellerToday (env : SummaryEnv) (db : Tables) (currentDate : Int) :
    String × Int × Option Err :=
  match env.bestSellerErr with
  | some e => ("", 0, some (.driver e))
  | none =>
    match queryBestSeller db currentDate with
    | none => ("", 0, none)
    | some (name, qty) => (name, qty, none)

/-- Body of an HTTP response of the summary handler. -/
inductive SummaryBody where
  /-- Plain text written by `http.Error`. -/
  | text (s : String)
  /-- The JSON object `{total_revenue, total_transaksi, produk_terlaris: {nama, qty_terjual}}`. -/
  | summary (total_revenue total_transaksi : Int) (nama : String) (qty_terjual : Int)
deriving DecidableEq, Repr

/-- An HTTP response: status code and body. -/
structure Response (β : Type) where
  status : Nat
  body : β
deriving DecidableEq, Repr

/-- Handler `TransactionHandler.SummaryToday` for a request with the given method. -/
def SummaryTodayHandler (method : String) (env : SummaryEnv) (db : Tables) (currentDate : Int) :
    Response SummaryBody :=
  if method ≠ "GET" then
    { status := 405, body := .text "method not allowed" }
  else
    match GetSummaryToday env db currentDate with
    | .error err =>
      { status := 500, body := .text ("failed to get today summary: " ++ err.message) }
    | .ok summary =>
      let (nama, qty, e) := GetBestSellerToday env db currentDate
      let (bpNama, bpQty) := if e = none then (nama, qty) else ("", 0)
      { status := 200,
        body := .summary summary.TotalRevenue summary.TotalTransaksi bpNama bpQty }

/-! ## In-memory product and category stores (`main.go`) -/

/-- Entry of the product list: `type Produk struct`. -/
structure Produk where
  ID : Int
  Nama : String
  Harga : Int
  Stok : Int
deriving DecidableEq, Repr

/-- Entry of the category list: `type Category struct`. -/
structure Category where
  ID : Int
  Name : String
  Description : String
deriving DecidableEq, Repr

/-- Initial value of the global `produk`. -/
def produk : List Produk :=
  [{ ID := 1, Nama := "Mie Goreng Super", Harga := 22000, Stok := 50 },
   { ID := 2, Nama := "Nasi Goreng Super", Harga := 22000, Stok := 100 },
   { ID := 3, Nama := "Jeruk Panas", Harga := 5000, Stok := 80 }]

/-- Initial value of the global `categories`. -/
def categories : List Category :=
  [{ ID := 1, Name := "Food", Description := "Makanan Siap Santap" },
   { ID := 2, Name := "Beverage", Description := "Pelepa dahaga" },
   { ID := 3, Name := "Snack", Description := "Penunda lapar" }]

/-- Body of an HTTP response of the in-memory handlers, over entries of type `α`. -/
inductive Body (α : Type) where
  /-- Plain text written by `http.Error`. -/
  | text (s : String)
  /-- One entry, JSON-encoded. -/
  | entry (x : α)
  /-- The JSON object `{"message": msg}`. -/
  | message (msg : String)
deriving DecidableEq, Repr

/-- The loop `for i, p := range list { if p.ID == id { ... return } }`, from position `i` on:
the index of the first entry whose id is `id`. -/
def indexOfID {α : Type} (getID : α → Int) (id : Int) : Nat → List α → Option Nat
  | _, [] => none
  | i, p :: rest => if getID p = id then some i else indexOfID getID id (i + 1) rest

/-- Handler `getProdukByID`: `pathID` is the result of `strconv.Atoi` on the path suffix
(`none` when it is not an integer). The loop returns the first entry whose id is `id`. -/
def getProdukByID (list : List Produk) (pathID : Option Int) : Response (Body Produk) :=
  match pathID with
  | none => { status := 400, body := .text "Invalid Produk ID" }
  | some id =>
    match list.find? (fun p => decide (p.ID = id)) with
    | some p => { status := 200, body := .entry p }
    | none => { status := 404, body := .text "Produk belum ada" }

/-- Handler `updateProduk`: `decoded` is the result of decoding the request body (`none` when
malformed). Returns the response and the new value of the global list. -/
def updateProduk (list : List Produk) (pathID : Option Int) (decoded : Option Produk) :
    Response (Body Produk) × List Produk :=
  match pathID with
  | none => ({ status := 400, body := .text "Invalid Produk ID" }, list)
  | some id =>
    match decoded with
    | none => ({ status := 400, body := .text "Invalid request" }, list)
    | some updateProduk =>
      match indexOfID Produk.ID id 0 list with
      | some i =>
        let updateProduk := { updateProduk with ID := id }
        ({ status := 200, body := .entry updateProduk }, list.set i updateProduk)
      | none => ({ status := 404, body := .text "Produk belum ada" }, list)

/-- Handler `deleteProduk`. Returns the response and the new value of the global list
(`append(produk[:i], produk[i+1:]...)`). -/
def deleteProduk (list : List Produk) (pathID : Option Int) :
    Response (Body Produk) × List Produk :=
  match pathID with
  | none => ({ status := 400, body := .text "Invalid Produk ID" }, list)
  | some id =>
    match indexOfID Produk.ID id 0 list with
    | some i =>
      ({ status := 200, body := .message "sukses delete" }, list.take i ++ list.drop (i + 1))
    | none => ({ status := 404, body := .text "Produk belum ada" }, list)

/-- Handler of `POST /api/produk`. -/
def createProduk (list : List Produk) (decoded : Option Produk) :
    Response (Body Produk) × List Produk :=
  match decoded with
  | none => ({ status := 400, body := .text "Invalid request" }, list)
  | some produkBaru =>
    let produkBaru := { produkBaru with ID := Int.ofNat list.length + 1 }
    ({ status := 201, body := .entry produkBaru }, list ++ [produkBaru])

/-- Handler `getCategoryByID`. -/
def getCategoryByID (list : List Category) (pathID : Option Int) : Response (Body Category) :=
  match pathID with
  | none => { status := 400, body := .text "Invalid Category ID" }
  | some id =>
    match list.find? (fun p => decide (p.ID = id)) with
    | some p => { status := 200, body := .entry p }
    | none => { status := 404, body := .text "Category belum ada" }

/-- Handler `updateCategory`. -/
def updateCategory (list : List Category) (pathID : Option Int) (decoded : Option Category) :
    Response (Body Category) × List Category :=
  match pathID with
  | none => ({ status := 400, body := .text "Invalid Category ID" }, list)
  | some id =>
    match decoded with
    | none => ({ status := 400, body := .text "Invalid request" }, list)
    | some updateCategory =>
      match indexOfID Category.ID id 0 list with
      | some i =>
        let updateCategory := { updateCategory with ID := id }
        ({ status := 200, body := .entry updateCategory }, list.set i updateCategory)
      | none => ({ status := 404, body := .text "Category belum ada" }, list)

/-- Handler `deleteCategory`. -/
def deleteCategory (list : List Category) (pathID : Option Int) :
    Response (Body Category) × List Category :=
  match pathID with
  | none => ({ status := 400, body := .text "Invalid Category ID" }, list)
  | some id =>
    match indexOfID Category.ID id 0 list with
    | some i =>
      ({ status := 200, body := .message "sukses delete" }, list.take i ++ list.drop (i + 1))
    | none => ({ status := 404, body := .text "Category belum ada" }, list)

/-- Handler of `POST /api/categories`. -/
def createCategory (list : List Category) (decoded : Option Category) :
    Response (Body Category) × List Category :=
  match decoded with
  | none => ({ status := 400, body := .text "Invalid request" }, list)
  | some newCategory =>
    let newCategory := { newCategory with ID := Int.ofNat list.length + 1 }
    ({ status := 201, body := .entry newCategory }, list ++ [newCategory])

/-- A state-changing request to the in-memory store of entries of type `α`. -/
inductive Request (α : Type) where
  | create (decoded : Option α)
  | update (pathID : Option Int) (decoded : Option α)
  | delete (pathID : Option Int)
deriving Repr

/-- The product list after one request. -/
def stepProduk (list : List Produk) : Request Produk → List Produk
  | .create decoded => (createProduk list decoded).2
  | .update pathID decoded => (updateProduk list pathID decoded).2
  | .delete pathID => (deleteProduk list pathID).2

/-- The category list after one request. -/
def stepCategory (list : List Category) : Request Category → List Category
  | .create decoded => (createCategory list decoded).2
  | .update pathID decoded => (updateCategory list pathID decoded).2
  | .delete pathID => (deleteCategory list pathID).2

/-- The product list after a sequence of requests, starting from `list`. -/
def runProduk (list : List Produk) (reqs : List (Request Produk)) : List Produk :=
  reqs.foldl stepProduk list

/-- The category list after a sequence of requests, starting from `list`. -/
def runCategory (list : List Category) (reqs : List (Request Category)) : List Category :=
  reqs.foldl stepCategory list

/-! ## Specification-side notions -/

/-- Total quantity requested for product `id` by a list of checkout items. -/
def qtyFor (items : List CheckoutItem) (id : Int) : Int :=
  ((items.filter (fun it => decide (it.ProductID = id))).map (fun it => it.Quantity)).sum

/-- The item names a product id that has no row in the product table. -/
def missing (product : List ProductRow) (item : CheckoutItem) : Bool :=
  (selectProduct product item.ProductID).isNone

/-- The detail line the checkout builds for `item` from the product table, before it is
stamped with the header id; `none` when the product id has no row. -/
def detailOf (product : List ProductRow) (item : CheckoutItem) : Option TransactionDetail :=
  (selectProduct product item.ProductID).map (fun row =>
    { ID := 0, TransactionID := 0, ProductID := item.ProductID, ProductName := row.name,
      Quantity := item.Quantity, Subtotal := mulInt item.Quantity row.price })

/-- The product table with every stock reduced by the quantity requested for its id. -/
def stockAfter (product : List ProductRow) (items : List CheckoutItem) : List ProductRow :=
  product.map (fun p => { p with stock := p.stock - qtyFor items p.id })

/-- A product table holding the three products of the sample data. -/
def shopTables : Tables where
  product :=
    [{ id := 1, name := "Mie Goreng Super", price := 22000, stock := 50, category_id := none },
     { id := 2, name := "Nasi Goreng Super", price := 22000, stock := 100, category_id := none },
     { id := 3, name := "Jeruk Panas", price := 5000, stock := 80, category_id := some 2 }]
  transactions := []
  transaction_details := []

/-- The transaction lies in the window from the start of day `currentDate` (inclusive) to
the start of the following day (exclusive). -/
def InWindow (currentDate : Int) (t : TransactionRow) : Prop :=
  startOfDay currentDate ≤ t.created_at ∧ t.created_at < startOfDay (currentDate + 1)

instance (currentDate : Int) (t : TransactionRow) : Decidable (InWindow currentDate t) := by
  unfold InWindow; infer_instance

/-- Tables with two sales of today (day 20000): 2 units of product 1 and 2 units of
product 2 in transaction 7, 1 unit of product 3 in transaction 8, and one sale of 9 units of
product 3 stamped the day before. -/
def salesTables : Tables where
  product := shopTables.product
  transactions :=
    [{ id := 6, total_amount := 45000, created_at := startOfDay 20000 - 1 },
     { id := 7, total_amount := 88000, created_at := startOfDay 20000 },
     { id := 8, total_amount := 5000, created_at := startOfDay 20000 + 3600000000 }]
  transaction_details :=
    [{ id := 1, transaction_id := 6, product_id := 3, quantity := 9, subtotal := 45000 },
     { id := 2, transaction_id := 7, product_id := 2, quantity := 2, subtotal := 44000 },
     { id := 3, transaction_id := 7, product_id := 1, quantity := 2, subtotal := 44000 },
     { id := 4, transaction_id := 8, product_id := 3, quantity := 1, subtotal := 5000 }]

/-- The `transaction_details` rows that stand for `details` under header `transactionID`,
the k-th with the id `detailID k`. -/
def detailRows (detailID : Nat → Int) (transactionID : Int) (details : List TransactionDetail) :
    List TransactionDetailRow :=
  details.enum.map (fun kd =>
    { id := detailID kd.1, transaction_id := transactionID, product_id := kd.2.ProductID,
      quantity := kd.2.Quantity, subtotal := kd.2.Subtotal })

/-- The text of a value tuple over the given placeholder numbers. -/
def renderTuple (tuple : List Nat) : String :=
  "(" ++ String.intercalate "," (tuple.map (fun k => "$" ++ toString k)) ++ ")"

/-- The text of the value tuple at position `i` (counting from 0):
`($4i+1,$4i+2,$4i+3,$4i+4)`. -/
def tupleText (i : Nat) : String :=
  "($" ++ toString (4 * i + 1) ++ ",$" ++ toString (4 * i + 2) ++ ",$" ++
    toString (4 * i + 3) ++ ",$" ++ toString (4 * i + 4) ++ ")"

/-! ## Properties -/

theorem wrapInt_of_inInt {x : Int} (h : InInt x) : wrapInt x = x := by
  unfold InInt at h
  unfold wrapInt
  omega

theorem wrapInt_add_wrapInt (a b : Int) : wrapInt (wrapInt a + b) = wrapInt (a + b) := by
  unfold wrapInt
  omega

theorem inInt_wrapInt (x : Int) : InInt (wrapInt x) := by
  unfold InInt wrapInt
  omega

theorem wrapInt_wrapInt (x : Int) : wrapInt (wrapInt x) = wrapInt x := by
  unfold wrapInt
  omega

theorem selectProduct_id {product : List ProductRow} {id : Int} {row : ProductRow}
    (h : selectProduct product id = some row) : row.id = id := by
  unfold selectProduct at h
  have := List.find?_some h
  simpa using this

theorem selectProduct_updateStock (product : List ProductRow) (q k id : Int) :
    selectProduct (updateStock product q k) id =
      (selectProduct product id).map
        (fun p => if p.id = k then { p with stock := p.stock - q } else p) := by
  unfold selectProduct updateStock
  induction product with
  | nil => rfl
  | cons p rest ih =>
    simp only [List.map_cons, List.find?_cons]
    have hid : (if p.id = k then { p with stock := p.stock - q } else p).id = p.id := by
      split <;> rfl
    rw [hid]
    cases hp : decide (p.id = id) with
    | true => rfl
    | false => exact ih

theorem detailOf_updateStock (product : List ProductRow) (q k : Int) (item : CheckoutItem) :
    detailOf (updateStock product q k) item = detailOf product item := by
  unfold detailOf
  rw [selectProduct_updateStock]
  cases selectProduct product item.ProductID with
  | none => rfl
  | some row =>
    simp only [Option.map]
    split <;> rfl

theorem qtyFor_cons (item : CheckoutItem) (rest : List CheckoutItem) (id : Int) :
    qtyFor (item :: rest) id =
      (if item.ProductID = id then item.Quantity else 0) + qtyFor rest id := by
  unfold qtyFor
  by_cases h : item.ProductID = id <;> simp [List.filter_cons, h]

theorem stockAfter_cons (product : List ProductRow) (item : CheckoutItem)
    (rest : List CheckoutItem) :
    stockAfter (updateStock product item.Quantity item.ProductID) rest =
      stockAfter product (item :: rest) := by
  unfold stockAfter updateStock
  rw [List.map_map]
  apply List.map_congr_left
  intro p _
  simp only [Function.comp, qtyFor_cons]
  by_cases h : p.id = item.ProductID
  · have h2 : item.ProductID = p.id := h.symm
    simp only [h, if_true]
    congr 1
    omega
  · have h2 : ¬ item.ProductID = p.id := fun e => h e.symm
    simp only [h, h2, if_false]
    congr 1
    omega

theorem checkoutStep_ok {env : TxEnv} {i : Nat} {item : CheckoutItem} {s s1 : LoopState}
    (h : checkoutStep env i item s = .ok s1) :
    ∃ d, detailOf s.product item = some d ∧
      s1.details = s.details ++ [d] ∧
      s1.totalAmount = addInt s.totalAmount d.Subtotal ∧
      s1.product = updateStock s.product item.Quantity item.ProductID ∧
      env.selectErr i = none ∧ env.updateErr i = none := by
  unfold checkoutStep at h
  cases hsel : env.selectErr i with
  | some e => rw [hsel] at h; cases h
  | none =>
    cases hrow : selectProduct s.product item.ProductID with
    | none => rw [hsel, hrow] at h; cases h
    | some row =>
      cases hupd : env.updateErr i with
      | some e => rw [hsel, hrow] at h; simp only [hupd] at h; cases h
      | none =>
        rw [hsel, hrow] at h
        simp only [hupd] at h
        injection h with h
        subst h
        have hid := selectProduct_id hrow
        refine ⟨_, ?_, rfl, rfl, ?_, rfl, rfl⟩
        · unfold detailOf
          rw [hrow, ← hid]
          rfl
        · simp only [hid]

theorem checkoutLoop_ok (env : TxEnv) :
    ∀ (items : List CheckoutItem) (i : Nat) (s s1 : LoopState),
      wrapInt s.totalAmount = s.totalAmount →
      checkoutLoop env i items s = .ok s1 →
      ∃ ds, s1.details = s.details ++ ds ∧
        ds.map some = items.map (detailOf s.product) ∧
        s1.totalAmount = wrapInt (s.totalAmount + (ds.map (fun d => d.Subtotal)).sum) ∧
        s1.product = stockAfter s.product items := by
  intro items
  induction items with
  | nil =>
    intro i s s1 hw h
    simp only [checkoutLoop] at h
    injection h with h
    subst h
    refine ⟨[], by simp, by simp, by simpa using hw.symm, ?_⟩
    unfold stockAfter qtyFor
    simp
  | cons item rest ih =>
    intro i s s1 hw h
    simp only [checkoutLoop] at h
    split at h
    · cases h
    · rename_i s0 hstep
      obtain ⟨d, hd, hdet, htot, hprod, _, _⟩ := checkoutStep_ok hstep
      have hw0 : wrapInt s0.totalAmount = s0.totalAmount := by
        rw [htot]; unfold addInt; exact wrapInt_wrapInt _
      obtain ⟨ds, h1, h2, h3, h4⟩ := ih (i + 1) s0 s1 hw0 h
      refine ⟨d :: ds, ?_, ?_, ?_, ?_⟩
      · rw [h1, hdet]; simp
      · rw [List.map_cons, List.map_cons, h2, hd, hprod]
        congr 1
        apply List.map_congr_left
        intro it _
        exact detailOf_updateStock _ _ _ _
      · rw [h3, htot]
        unfold addInt
        rw [wrapInt_add_wrapInt]
        simp only [List.map_cons, List.sum_cons]
        congr 1
        ring
      · rw [h4, hprod]
        exact stockAfter_cons _ _ _

theorem createTransactionTx_ok {env : TxEnv} {db published : Tables} {items : List CheckoutItem}
    {t : Transaction} (h : createTransactionTx env db items = .ok (t, published)) :
    ∃ ds, ds.map some = items.map (detailOf db.product) ∧
      t.ID = env.transactionID ∧
      t.Details = stampDetails env.transactionID ds ∧
      t.TotalAmount = wrapInt ((ds.map (fun d => d.Subtotal)).sum) ∧
      published.product = stockAfter db.product items ∧
      published.transactions = db.transactions ++
        [{ id := env.transactionID, total_amount := t.TotalAmount,
           created_at := env.createdAt }] ∧
      ∃ rows, execBulkInsert env.detailID (bulkTuples (stampDetails env.transactionID ds))
            (bulkArgs env.transactionID (stampDetails env.transactionID ds)) = some rows ∧
        published.transaction_details = db.transaction_details ++ rows := by
  unfold createTransactionTx at h
  cases hloop : checkoutLoop env 0 items
      { product := db.product, totalAmount := 0, details := [] } with
  | error e => rw [hloop] at h; cases h
  | ok s =>
    rw [hloop] at h
    obtain ⟨ds, h1, h2, h3, h4⟩ := checkoutLoop_ok env items 0 _ s (by show wrapInt 0 = 0; decide) hloop
    simp only [List.nil_append, zero_add] at h1 h2 h3 h4
    cases hhead : env.insertHeaderErr with
    | some e => simp only [hhead] at h; cases h
    | none =>
      simp only [hhead] at h
      by_cases hlen : 0 < s.details.length
      · rw [if_pos hlen] at h
        cases hdet : env.insertDetailsErr with
        | some e => simp only [hdet] at h; cases h
        | none =>
          simp only [hdet] at h
          cases hexec : execBulkInsert env.detailID
              (bulkTuples (stampDetails env.transactionID s.details))
              (bulkArgs env.transactionID (stampDetails env.transactionID s.details)) with
          | none => simp only [hexec] at h; cases h
          | some rows =>
            simp only [hexec] at h
            injection h with h
            injection h with ht hp
            subst ht hp
            subst h1
            exact ⟨s.details, h2, rfl, rfl, h3, h4, rfl, rows, hexec, rfl⟩
      · rw [if_neg hlen] at h
        injection h with h
        injection h with ht hp
        subst ht hp
        have hnil : s.details = [] := by
          cases hd : s.details with
          | nil => rfl
          | cons a l => rw [hd] at hlen; simp at hlen
        subst h1
        refine ⟨s.details, h2, rfl, ?_, h3, h4, rfl, [], ?_, by simp⟩
        · rw [hnil]; rfl
        · rw [hnil]; rfl

theorem createTransaction_ok {env : TxEnv} {db published : Tables} {items : List CheckoutItem}
    {t : Transaction} (h : CreateTransaction env db items = (.ok t, published)) :
    createTransactionTx env db items = .ok (t, published) ∧
      env.beginErr = none ∧ env.commitErr = none := by
  unfold CreateTransaction at h
  cases hb : env.beginErr with
  | some e => simp only [hb] at h; cases h
  | none =>
    simp only [hb] at h
    cases htx : createTransactionTx env db items with
    | error e => simp only [htx] at h; cases h
    | ok r =>
      obtain ⟨t0, p0⟩ := r
      simp only [htx] at h
      cases hc : env.commitErr with
      | some e => simp only [hc] at h; cases h
      | none =>
        simp only [hc] at h
        injection h with h1 h2
        injection h1 with h1
        subst h1 h2
        exact ⟨rfl, rfl, rfl⟩

theorem createTransaction_error {env : TxEnv} {db : Tables} {items : List CheckoutItem} {e : Err}
    (h : (CreateTransaction env db items).1 = .error e) :
    (CreateTransaction env db items).2 = db := by
  unfold CreateTransaction at h ⊢
  cases hb : env.beginErr with
  | some e0 => rfl
  | none =>
    simp only [hb] at h ⊢
    cases htx : createTransactionTx env db items with
    | error e0 => rfl
    | ok r =>
      obtain ⟨t0, p0⟩ := r
      simp only [htx] at h ⊢
      cases hc : env.commitErr with
      | some e0 => rfl
      | none => simp only [hc] at h; cases h

theorem foldl_addInt (l : List Int) :
    ∀ acc : Int, wrapInt acc = acc → l.foldl addInt acc = wrapInt (acc + l.sum) := by
  induction l with
  | nil => intro acc h; simpa using h.symm
  | cons x rest ih =>
    intro acc _
    rw [List.foldl_cons, ih (addInt acc x) (wrapInt_wrapInt _)]
    unfold addInt
    rw [wrapInt_add_wrapInt, List.sum_cons, add_assoc]

theorem stampDetails_subtotal (tid : Int) (ds : List TransactionDetail) :
    (stampDetails tid ds).map (fun d => d.Subtotal) = ds.map (fun d => d.Subtotal) := by
  unfold stampDetails
  rw [List.map_map]
  rfl

/-- C1: whenever `CreateTransaction` succeeds, the returned `TotalAmount` is the sum of the
`Subtotal` fields of the returned `Details`, taken in Go's `int` (the running `+=` of the
loop, which is the exact sum whenever that sum is representable), and the header row
appended to `transactions` carries this same total under the returned id. -/
theorem createTransaction_total_eq_sum (env : TxEnv) (db published : Tables)
    (items : List CheckoutItem) (t : Transaction)
    (h : CreateTransaction env db items = (.ok t, published)) :
    t.TotalAmount = (t.Details.map (fun d => d.Subtotal)).foldl addInt 0 ∧
      t.TotalAmount = wrapInt ((t.Details.map (fun d => d.Subtotal)).sum) ∧
      (InInt ((t.Details.map (fun d => d.Subtotal)).sum) →
        t.TotalAmount = (t.Details.map (fun d => d.Subtotal)).sum) ∧
      published.transactions = db.transactions ++
        [{ id := t.ID, total_amount := t.TotalAmount, created_at := env.createdAt }] := by
  obtain ⟨htx, _, _⟩ := createTransaction_ok h
  obtain ⟨ds, _, hid, hdet, htot, _, htrans, _⟩ := createTransactionTx_ok htx
  have hsum : t.TotalAmount = wrapInt ((t.Details.map (fun d => d.Subtotal)).sum) := by
    rw [hdet, stampDetails_subtotal]; exact htot
  refine ⟨?_, hsum, ?_, ?_⟩
  · rw [foldl_addInt _ 0 (by decide), zero_add]; exact hsum
  · intro hin
    rw [hsum]; exact wrapInt_of_inInt hin
  · rw [htrans, hid]

/-- Witness for C1: two lines on product 1 (price 22000), 2 and 3 units. -/
theorem createTransaction_total_eq_sum_witness :
    (110000 : Int) = ([44000, 66000] : List Int).foldl addInt 0 ∧
      (110000 : Int) = wrapInt (([44000, 66000] : List Int).sum) ∧
      (InInt (([44000, 66000] : List Int).sum) →
        (110000 : Int) = ([44000, 66000] : List Int).sum) ∧
      ({ shopTables with
          product := stockAfter shopTables.product [⟨1, 2⟩, ⟨1, 3⟩]
          transactions := [{ id := 7, total_amount := 110000, created_at := 0 }]
          transaction_details :=
            [{ id := 1, transaction_id := 7, product_id := 1, quantity := 2, subtotal := 44000 },
             { id := 2, transaction_id := 7, product_id := 1, quantity := 3,
               subtotal := 66000 }] } : Tables).transactions =
        shopTables.transactions ++ [{ id := 7, total_amount := 110000, created_at := 0 }] :=
  createTransaction_total_eq_sum (TxEnv.quiet 7 0) shopTables
    { shopTables with
      product := stockAfter shopTables.product [⟨1, 2⟩, ⟨1, 3⟩]
      transactions := [{ id := 7, total_amount := 110000, created_at := 0 }]
      transaction_details :=
        [{ id := 1, transaction_id := 7, product_id := 1, quantity := 2, subtotal := 44000 },
         { id := 2, transaction_id := 7, product_id := 1, quantity := 3, subtotal := 66000 }] }
    [{ ProductID := 1, Quantity := 2 }, { ProductID := 1, Quantity := 3 }]
    { ID := 7, TotalAmount := 110000,
      Details :=
        [{ ID := 0, TransactionID := 7, ProductID := 1, ProductName := "Mie Goreng Super",
           Quantity := 2, Subtotal := 44000 },
         { ID := 0, TransactionID := 7, ProductID := 1, ProductName := "Mie Goreng Super",
           Quantity := 3, Subtotal := 66000 }] }
    (by rfl)

theorem qtyFor_of_not_named (items : List CheckoutItem) (id : Int)
    (h : ∀ it ∈ items, it.ProductID ≠ id) : qtyFor items id = 0 := by
  induction items with
  | nil => rfl
  | cons it rest ih =>
    rw [qtyFor_cons, if_neg (h it (List.mem_cons_self _ _)),
      ih (fun x hx => h x (List.mem_cons_of_mem _ hx))]
    rfl

theorem qtyFor_append (pre post : List CheckoutItem) (id : Int) :
    qtyFor (pre ++ post) id = qtyFor pre id + qtyFor post id := by
  induction pre with
  | nil => simp [qtyFor]
  | cons it rest ih => rw [List.cons_append, qtyFor_cons, qtyFor_cons, ih, add_assoc]

/-- C2: whenever `CreateTransaction` succeeds, the product table afterwards is the product
table before with, row by row, the same id, name, price and category and the stock reduced
by the sum of the quantities of the items naming that id: by exactly the item's quantity
when one item names it, by nothing when no item names it. -/
theorem createTransaction_stock_frame (env : TxEnv) (db published : Tables)
    (items : List CheckoutItem) (t : Transaction)
    (h : CreateTransaction env db items = (.ok t, published)) :
    published.product.length = db.product.length ∧
      (∀ (k : Nat) (p : ProductRow), db.product[k]? = some p →
        published.product[k]? =
          some { id := p.id, name := p.name, price := p.price,
                 stock := p.stock - qtyFor items p.id, category_id := p.category_id }) ∧
      (∀ (pre post : List CheckoutItem) (it : CheckoutItem), items = pre ++ it :: post →
        (∀ x ∈ pre ++ post, x.ProductID ≠ it.ProductID) →
        qtyFor items it.ProductID = it.Quantity) ∧
      (∀ (k : Nat) (p : ProductRow), db.product[k]? = some p →
        (∀ it ∈ items, it.ProductID ≠ p.id) → published.product[k]? = some p) := by
  obtain ⟨htx, _, _⟩ := createTransaction_ok h
  obtain ⟨ds, _, _, _, _, hprod, _⟩ := createTransactionTx_ok htx
  have hrow : ∀ (k : Nat) (p : ProductRow), db.product[k]? = some p →
      published.product[k]? =
        some { id := p.id, name := p.name, price := p.price,
               stock := p.stock - qtyFor items p.id, category_id := p.category_id } := by
    intro k p hk
    rw [hprod]
    unfold stockAfter
    rw [List.getElem?_map, hk]
    rfl
  refine ⟨?_, hrow, ?_, ?_⟩
  · rw [hprod]; unfold stockAfter; exact List.length_map _ _
  · intro pre post it hitems hother
    subst hitems
    rw [qtyFor_append, qtyFor_cons, if_pos rfl,
      qtyFor_of_not_named pre _ (fun x hx => hother x (List.mem_append_left _ hx)),
      qtyFor_of_not_named post _ (fun x hx => hother x (List.mem_append_right _ hx))]
    simp
  · intro k p hk hnot
    rw [hrow k p hk, qtyFor_of_not_named items p.id hnot]
    simp

/-- Witness for C2: product 1 with stock 50 and item (product 1, quantity 2) ends with
stock 48; products 2 and 3 keep their rows. -/
theorem createTransaction_stock_frame_witness :
    CreateTransaction (TxEnv.quiet 7 0) shopTables [{ ProductID := 1, Quantity := 2 }] =
        (.ok { ID := 7, TotalAmount := 44000,
               Details := [{ ID := 0, TransactionID := 7, ProductID := 1,
                             ProductName := "Mie Goreng Super", Quantity := 2,
                             Subtotal := 44000 }] },
         { product :=
             [{ id := 1, name := "Mie Goreng Super", price := 22000, stock := 48,
                category_id := none },
              { id := 2, name := "Nasi Goreng Super", price := 22000, stock := 100,
                category_id := none },
              { id := 3, name := "Jeruk Panas", price := 5000, stock := 80,
                category_id := some 2 }],
           transactions := [{ id := 7, total_amount := 44000, created_at := 0 }],
           transaction_details :=
             [{ id := 1, transaction_id := 7, product_id := 1, quantity := 2,
                subtotal := 44000 }] }) ∧
      qtyFor [{ ProductID := 1, Quantity := 2 }] 1 = 2 :=
  ⟨by rfl,
   (createTransaction_stock_frame (TxEnv.quiet 7 0) shopTables _
      [{ ProductID := 1, Quantity := 2 }] _ (by rfl)).2.2.1 [] [] ⟨1, 2⟩ rfl (by simp)⟩

theorem selectProduct_split {product : List ProductRow} {id : Int} {row : ProductRow}
    (h : selectProduct product id = some row) :
    ∃ pre post, product = pre ++ row :: post ∧ row.id = id ∧ ∀ p ∈ pre, p.id ≠ id := by
  induction product with
  | nil => cases h
  | cons p rest ih =>
    unfold selectProduct at h
    rw [List.find?_cons] at h
    by_cases hp : p.id = id
    · simp only [hp, decide_True, Option.some.injEq] at h
      subst h
      exact ⟨[], rest, rfl, hp, by simp⟩
    · simp only [hp, decide_False] at h
      obtain ⟨pre, post, h1, h2, h3⟩ := ih h
      refine ⟨p :: pre, post, by rw [h1]; rfl, h2, ?_⟩
      intro q hq
      rcases List.mem_cons.1 hq with heq | hin
      · subst heq; exact hp
      · exact h3 q hin

/-- C4: whenever `CreateTransaction` succeeds on `n` items, `Details` has `n` entries in the
order of the items; for the item at position `k`, the product table before the call holds a
row whose id is the item's product id (the first such row in storage order, the one the
lookup returns), and the entry at position `k` carries the item's product id and quantity,
the name of that row, `Subtotal = Quantity * price` for the price of that row (Go `int`
product, the exact product whenever it is representable), and the id of the header row
appended to `transactions`, which is the returned transaction's id. -/
theorem createTransaction_details (env : TxEnv) (db published : Tables)
    (items : List CheckoutItem) (t : Transaction)
    (h : CreateTransaction env db items = (.ok t, published)) :
    t.Details.length = items.length ∧
      (∀ (k : Nat) (item : CheckoutItem), items[k]? = some item →
        ∃ pre row post, db.product = pre ++ row :: post ∧ row.id = item.ProductID ∧
          (∀ p ∈ pre, p.id ≠ item.ProductID) ∧
          selectProduct db.product item.ProductID = some row ∧
          t.Details[k]? =
            some { ID := 0, TransactionID := t.ID, ProductID := item.ProductID,
                   ProductName := row.name, Quantity := item.Quantity,
                   Subtotal := mulInt item.Quantity row.price } ∧
          (InInt (item.Quantity * row.price) →
            mulInt item.Quantity row.price = item.Quantity * row.price)) ∧
      published.transactions = db.transactions ++
        [{ id := t.ID, total_amount := t.TotalAmount, created_at := env.createdAt }] := by
  obtain ⟨htx, _, _⟩ := createTransaction_ok h
  obtain ⟨ds, hds, hid, hdet, _, _, htrans, _⟩ := createTransactionTx_ok htx
  refine ⟨?_, ?_, ?_⟩
  · have := congrArg List.length hds
    simp only [List.length_map] at this
    rw [hdet]; unfold stampDetails
    rw [List.length_map]; exact this
  · intro k item hk
    have hk2 := congrArg (fun l => l[k]?) hds
    simp only [List.getElem?_map, hk, Option.map_some'] at hk2
    cases hdk : ds[k]? with
    | none => rw [hdk] at hk2; cases hk2
    | some d =>
      rw [hdk] at hk2
      simp only [Option.map_some'] at hk2
      unfold detailOf at hk2
      cases hrow : selectProduct db.product item.ProductID with
      | none => rw [hrow] at hk2; cases hk2
      | some row =>
        rw [hrow] at hk2
        simp only [Option.map_some', Option.some.injEq] at hk2
        obtain ⟨pre, post, hsplit, hrid, hpre⟩ := selectProduct_split hrow
        refine ⟨pre, row, post, hsplit, hrid, hpre, rfl, ?_, ?_⟩
        · rw [hdet]; unfold stampDetails
          rw [List.getElem?_map, hdk, hk2, hid]
          rfl
        · intro hin
          exact wrapInt_of_inInt hin
  · rw [htrans, hid]

/-- Witness for C4: item (product 1, quantity 2) at price 22000 yields one detail with
subtotal 44000 and total amount 44000; and in a checkout of 4 units of product 3 followed by
2 units of product 1, the first detail is built from the row of product 3, the third row of
the table ("Jeruk Panas" at 5000). -/
theorem createTransaction_details_witness :
    CreateTransaction (TxEnv.quiet 7 0) shopTables [{ ProductID := 1, Quantity := 2 }] =
        (.ok { ID := 7, TotalAmount := 44000,
               Details := [{ ID := 0, TransactionID := 7, ProductID := 1,
                             ProductName := "Mie Goreng Super", Quantity := 2,
                             Subtotal := 44000 }] },
         { product := stockAfter shopTables.product [{ ProductID := 1, Quantity := 2 }],
           transactions := [{ id := 7, total_amount := 44000, created_at := 0 }],
           transaction_details :=
             [{ id := 1, transaction_id := 7, product_id := 1, quantity := 2,
                subtotal := 44000 }] }) ∧
      ∃ pre row post, shopTables.product = pre ++ row :: post ∧ row.id = 3 ∧
        (∀ p ∈ pre, p.id ≠ 3) ∧
        selectProduct shopTables.product 3 = some row ∧
        ([{ ID := 0, TransactionID := 7, ProductID := 3, ProductName := "Jeruk Panas",
            Quantity := 4, Subtotal := 20000 },
          { ID := 0, TransactionID := 7, ProductID := 1, ProductName := "Mie Goreng Super",
            Quantity := 2, Subtotal := 44000 }] : List TransactionDetail)[0]? =
          some { ID := 0, TransactionID := 7, ProductID := 3, ProductName := row.name,
                 Quantity := 4, Subtotal := mulInt 4 row.price } ∧
        (InInt (4 * row.price) → mulInt 4 row.price = 4 * row.price) :=
  ⟨by rfl,
   (createTransaction_details (TxEnv.quiet 7 0) shopTables
      { product := stockAfter shopTables.product [⟨3, 4⟩, ⟨1, 2⟩],
        transactions := [{ id := 7, total_amount := 64000, created_at := 0 }],
        transaction_details :=
          [{ id := 1, transaction_id := 7, product_id := 3, quantity := 4, subtotal := 20000 },
           { id := 2, transaction_id := 7, product_id := 1, quantity := 2,
             subtotal := 44000 }] }
      [⟨3, 4⟩, ⟨1, 2⟩]
      { ID := 7, TotalAmount := 64000,
        Details :=
          [{ ID := 0, TransactionID := 7, ProductID := 3, ProductName := "Jeruk Panas",
             Quantity := 4, Subtotal := 20000 },
           { ID := 0, TransactionID := 7, ProductID := 1, ProductName := "Mie Goreng Super",
             Quantity := 2, Subtotal := 44000 }] }
      (by rfl)).2.1 0 ⟨3, 4⟩ rfl⟩

theorem missing_iff (product : List ProductRow) (item : CheckoutItem) :
    missing product item = true ↔ ∀ p ∈ product, p.id ≠ item.ProductID := by
  unfold missing selectProduct
  rw [Option.isNone_iff_eq_none, List.find?_eq_none]
  simp

theorem missing_updateStock (product : List ProductRow) (q k : Int) (item : CheckoutItem) :
    missing (updateStock product q k) item = missing product item := by
  unfold missing
  rw [selectProduct_updateStock]
  cases selectProduct product item.ProductID <;> rfl

theorem checkoutStep_missing {env : TxEnv} {i : Nat} {item : CheckoutItem} {s : LoopState}
    (hsel : env.selectErr i = none) (hmiss : missing s.product item = true) :
    checkoutStep env i item s = .error (.productNotFound item.ProductID) := by
  unfold missing at hmiss
  rw [Option.isNone_iff_eq_none] at hmiss
  unfold checkoutStep
  rw [hsel, hmiss]

theorem checkoutStep_present {env : TxEnv} {i : Nat} {item : CheckoutItem} {s : LoopState}
    (hsel : env.selectErr i = none) (hupd : env.updateErr i = none)
    (hpres : missing s.product item = false) :
    ∃ s1, checkoutStep env i item s = .ok s1 ∧
      s1.product = updateStock s.product item.Quantity item.ProductID := by
  unfold missing at hpres
  cases hrow : selectProduct s.product item.ProductID with
  | none => rw [hrow] at hpres; cases hpres
  | some row =>
    have hid := selectProduct_id hrow
    unfold checkoutStep
    rw [hsel, hrow]
    simp only [hupd]
    exact ⟨_, rfl, by simp only [hid]⟩

theorem checkoutLoop_missing (env : TxEnv) (it0 : CheckoutItem) (post : List CheckoutItem) :
    ∀ (pre : List CheckoutItem) (i : Nat) (s : LoopState),
      (∀ it ∈ pre, missing s.product it = false) →
      missing s.product it0 = true →
      (∀ j, j ≤ pre.length → env.selectErr (i + j) = none) →
      (∀ j, j < pre.length → env.updateErr (i + j) = none) →
      checkoutLoop env i (pre ++ it0 :: post) s = .error (.productNotFound it0.ProductID) := by
  intro pre
  induction pre with
  | nil =>
    intro i s _ hmiss hsel _
    simp only [List.nil_append, checkoutLoop]
    have h0 : env.selectErr i = none := hsel 0 (Nat.le_refl _)
    rw [checkoutStep_missing h0 hmiss]
  | cons item rest ih =>
    intro i s hpre hmiss hsel hupd
    simp only [List.cons_append, checkoutLoop]
    have h0 : env.selectErr i = none := hsel 0 (Nat.zero_le _)
    have h1 : env.updateErr i = none := hupd 0 (by simp)
    obtain ⟨s1, hstep, hprod⟩ := @checkoutStep_present env i item s h0 h1
      (hpre item (List.mem_cons_self _ _))
    rw [hstep]
    simp only
    apply ih (i + 1) s1
    · intro it hit
      rw [hprod, missing_updateStock]
      exact hpre it (List.mem_cons_of_mem _ hit)
    · rw [hprod, missing_updateStock]; exact hmiss
    · intro j hj
      have := hsel (j + 1) (by simpa using hj)
      rwa [show i + 1 + j = i + (j + 1) by omega]
    · intro j hj
      have := hupd (j + 1) (by simpa using hj)
      rwa [show i + 1 + j = i + (j + 1) by omega]

theorem first_missing (product : List ProductRow) :
    ∀ items : List CheckoutItem, (∃ it ∈ items, missing product it = true) →
      ∃ pre it0 post, items = pre ++ it0 :: post ∧
        (∀ it ∈ pre, missing product it = false) ∧ missing product it0 = true ∧
        items.findIdx (missing product) = pre.length := by
  intro items
  induction items with
  | nil => rintro ⟨it, hit, _⟩; cases hit
  | cons item rest ih =>
    intro hex
    cases hm : missing product item with
    | true =>
      exact ⟨[], item, rest, rfl, by simp, hm, by simp [List.findIdx_cons, hm]⟩
    | false =>
      have hex2 : ∃ it ∈ rest, missing product it = true := by
        obtain ⟨it, hit, hmit⟩ := hex
        rcases List.mem_cons.1 hit with heq | hin
        · subst heq; rw [hm] at hmit; cases hmit
        · exact ⟨it, hin, hmit⟩
      obtain ⟨pre, it0, post, h1, h2, h3, h4⟩ := ih hex2
      refine ⟨item :: pre, it0, post, by rw [h1]; rfl, ?_, h3, ?_⟩
      · intro it hit
        rcases List.mem_cons.1 hit with heq | hin
        · subst heq; exact hm
        · exact h2 it hin
      · simp [List.findIdx_cons, hm, h4]

/-- C3: when some item names a product id without a row in the product table and the store
raises no fault before the lookup of the first such item, `CreateTransaction` returns the
error "product id <id> not found" for that first missing id and no transaction, and the
product, transactions and transaction_details tables are exactly as before the call, however
many earlier items were processed inside the database transaction. For every fault schedule,
an error return leaves the tables as they were. -/
theorem createTransaction_missing_product (env : TxEnv) (db : Tables)
    (items : List CheckoutItem)
    (hex : ∃ it ∈ items, ∀ p ∈ db.product, p.id ≠ it.ProductID)
    (hbegin : env.beginErr = none)
    (hsel : ∀ j, j ≤ items.findIdx (missing db.product) → env.selectErr j = none)
    (hupd : ∀ j, j < items.findIdx (missing db.product) → env.updateErr j = none) :
    (∃ pre it0 post, items = pre ++ it0 :: post ∧
        (∀ it ∈ pre, ∃ p ∈ db.product, p.id = it.ProductID) ∧
        (∀ p ∈ db.product, p.id ≠ it0.ProductID) ∧
        CreateTransaction env db items = (.error (.productNotFound it0.ProductID), db) ∧
        (Err.productNotFound it0.ProductID).message =
          "product id " ++ toString it0.ProductID ++ " not found") ∧
      (∀ (env1 : TxEnv) (e : Err), (CreateTransaction env1 db items).1 = .error e →
        (CreateTransaction env1 db items).2 = db) := by
  refine ⟨?_, fun env1 e h => createTransaction_error h⟩
  have hex2 : ∃ it ∈ items, missing db.product it = true := by
    obtain ⟨it, hit, hno⟩ := hex
    exact ⟨it, hit, (missing_iff _ _).2 hno⟩
  obtain ⟨pre, it0, post, hitems, hpre, hmiss, hidx⟩ := first_missing db.product items hex2
  refine ⟨pre, it0, post, hitems, ?_, (missing_iff _ _).1 hmiss, ?_, rfl⟩
  · intro it hit
    have hf := hpre it hit
    by_contra hcon
    have : missing db.product it = true := (missing_iff _ _).2 (by
      intro p hp heq
      exact hcon ⟨p, hp, heq⟩)
    rw [hf] at this
    cases this
  · rw [hidx] at hsel hupd
    have hloop := checkoutLoop_missing env it0 post pre 0
      { product := db.product, totalAmount := 0, details := [] } hpre hmiss
      (fun j hj => by simpa using hsel j hj) (fun j hj => by simpa using hupd j hj)
    unfold CreateTransaction
    rw [hbegin]
    simp only
    unfold createTransactionTx
    rw [← hitems] at hloop
    rw [hloop]

/-- Witness for C3: product 1 is processed first (its stock is decremented inside the
database transaction), then product 999 is not found; the tables are untouched. -/
theorem createTransaction_missing_product_witness :
    (∃ pre it0 post, ([⟨1, 2⟩, ⟨999, 1⟩, ⟨2, 1⟩] : List CheckoutItem) = pre ++ it0 :: post ∧
        (∀ it ∈ pre, ∃ p ∈ shopTables.product, p.id = it.ProductID) ∧
        (∀ p ∈ shopTables.product, p.id ≠ it0.ProductID) ∧
        CreateTransaction (TxEnv.quiet 7 0) shopTables [⟨1, 2⟩, ⟨999, 1⟩, ⟨2, 1⟩] =
          (.error (.productNotFound it0.ProductID), shopTables) ∧
        (Err.productNotFound it0.ProductID).message =
          "product id " ++ toString it0.ProductID ++ " not found") ∧
      (∀ (env1 : TxEnv) (e : Err),
        (CreateTransaction env1 shopTables [⟨1, 2⟩, ⟨999, 1⟩, ⟨2, 1⟩]).1 = .error e →
        (CreateTransaction env1 shopTables [⟨1, 2⟩, ⟨999, 1⟩, ⟨2, 1⟩]).2 = shopTables) :=
  createTransaction_missing_product (TxEnv.quiet 7 0) shopTables [⟨1, 2⟩, ⟨999, 1⟩, ⟨2, 1⟩]
    ⟨⟨999, 1⟩, by simp, by simp [shopTables]⟩ rfl (fun _ _ => rfl) (fun _ _ => rfl)

/-- C5, as stated, fails: with stock 80 of product 3 and a request for 81 units (positive
quantity, all stocks non-negative before), the checkout succeeds and leaves stock -1. -/
theorem createTransaction_stock_negative_counterexample :
    (∀ p ∈ shopTables.product, 0 ≤ p.stock) ∧
      (∀ it ∈ ([⟨3, 81⟩] : List CheckoutItem), 0 < it.Quantity) ∧
      (CreateTransaction (TxEnv.quiet 7 0) shopTables [⟨3, 81⟩]).1 =
        .ok { ID := 7, TotalAmount := 405000,
              Details := [{ ID := 0, TransactionID := 7, ProductID := 3,
                            ProductName := "Jeruk Panas", Quantity := 81,
                            Subtotal := 405000 }] } ∧
      (∃ p ∈ (CreateTransaction (TxEnv.quiet 7 0) shopTables [⟨3, 81⟩]).2.product,
        p.id = 3 ∧ p.stock = -1) := by
  refine ⟨by simp [shopTables], by simp, by rfl, ?_⟩
  have hprod : (CreateTransaction (TxEnv.quiet 7 0) shopTables [⟨3, 81⟩]).2.product =
      [{ id := 1, name := "Mie Goreng Super", price := 22000, stock := 50, category_id := none },
       { id := 2, name := "Nasi Goreng Super", price := 22000, stock := 100,
         category_id := none },
       { id := 3, name := "Jeruk Panas", price := 5000, stock := -1,
         category_id := some 2 }] := by rfl
  rw [hprod]
  exact ⟨{ id := 3, name := "Jeruk Panas", price := 5000, stock := -1, category_id := some 2 },
    by simp, rfl, rfl⟩

/-- C5, amended: when every stock is non-negative before the call and, for every product,
the quantities requested for it sum to at most its stock, every stock is non-negative after
`CreateTransaction` returns, successfully or with an error; and after a successful return
the stocks are all non-negative exactly when the requests fit the stocks in this sense. -/
theorem createTransaction_stock_nonneg (env : TxEnv) (db : Tables) (items : List CheckoutItem)
    (hstock : ∀ p ∈ db.product, 0 ≤ p.stock)
    (_hpos : ∀ it ∈ items, 0 < it.Quantity) :
    ((∀ p ∈ db.product, qtyFor items p.id ≤ p.stock) →
        ∀ p ∈ (CreateTransaction env db items).2.product, 0 ≤ p.stock) ∧
      (∀ (t : Transaction) (published : Tables),
        CreateTransaction env db items = (.ok t, published) →
        ((∀ p ∈ published.product, 0 ≤ p.stock) ↔
          ∀ p ∈ db.product, qtyFor items p.id ≤ p.stock)) := by
  have hsucc : ∀ (t : Transaction) (published : Tables),
      CreateTransaction env db items = (.ok t, published) →
      ((∀ p ∈ published.product, 0 ≤ p.stock) ↔
        ∀ p ∈ db.product, qtyFor items p.id ≤ p.stock) := by
    intro t published h
    obtain ⟨htx, _, _⟩ := createTransaction_ok h
    obtain ⟨ds, _, _, _, _, hprod, _⟩ := createTransactionTx_ok htx
    rw [hprod]
    unfold stockAfter
    constructor
    · intro hall p hp
      have := hall _ (List.mem_map_of_mem _ hp)
      simp only at this
      omega
    · intro hfit p hp
      obtain ⟨p0, hp0, heq⟩ := List.mem_map.1 hp
      subst heq
      have := hfit p0 hp0
      simp only
      omega
  refine ⟨?_, hsucc⟩
  intro hfit
  cases hres : CreateTransaction env db items with
  | mk r tbl =>
    cases r with
    | error e =>
      have := @createTransaction_error env db items e (by rw [hres])
      rw [hres] at this
      simp only at this
      simp only
      rw [this]
      exact hstock
    | ok t => exact (hsucc t tbl hres).2 hfit

/-- Witness for the amended C5: 80 units of product 3 are in stock and 80 are requested;
the checkout succeeds and leaves stock 0. -/
theorem createTransaction_stock_nonneg_witness :
    (CreateTransaction (TxEnv.quiet 7 0) shopTables [⟨3, 80⟩]).2.product =
        [{ id := 1, name := "Mie Goreng Super", price := 22000, stock := 50,
           category_id := none },
         { id := 2, name := "Nasi Goreng Super", price := 22000, stock := 100,
           category_id := none },
         { id := 3, name := "Jeruk Panas", price := 5000, stock := 0,
           category_id := some 2 }] ∧
      ∀ p ∈ (CreateTransaction (TxEnv.quiet 7 0) shopTables [⟨3, 80⟩]).2.product, 0 ≤ p.stock :=
  ⟨by rfl,
   (createTransaction_stock_nonneg (TxEnv.quiet 7 0) shopTables [⟨3, 80⟩]
      (by simp [shopTables]) (by simp)).1 (by simp [shopTables, qtyFor])⟩

theorem inToday_iff (d : Int) (t : TransactionRow) : inToday d t = true ↔ InWindow d t := by
  unfold inToday InWindow startOfDay
  rw [Bool.and_eq_true, decide_eq_true_iff, decide_eq_true_iff, add_mul, one_mul]

theorem coalesce_sqlSum (values : List Int) : coalesce (sqlSum values) 0 = values.sum := by
  cases values <;> rfl

theorem sum_filter_map (p : TransactionRow → Bool) (l : List TransactionRow) :
    ((l.filter p).map (fun t => t.total_amount)).sum =
      (l.map (fun t => if p t = true then t.total_amount else 0)).sum := by
  induction l with
  | nil => rfl
  | cons t rest ih =>
    cases hp : p t <;> simp [List.filter_cons, hp, ih]

theorem querySummary_eq (db : Tables) (d : Int) :
    querySummary db d =
      ((db.transactions.map (fun t => if InWindow d t then t.total_amount else 0)).sum,
        Int.ofNat (db.transactions.countP (fun t => decide (InWindow d t)))) := by
  unfold querySummary
  simp only [coalesce_sqlSum, sum_filter_map, inToday_iff]
  congr 2
  rw [List.countP_eq_length_filter]
  congr 2
  funext t
  rw [Bool.eq_iff_iff, inToday_iff, decide_eq_true_iff]

theorem soldToday_eq_nil (db : Tables) (d : Int)
    (h : ∀ t ∈ db.transactions, ¬ InWindow d t) : soldToday db d = [] := by
  unfold soldToday
  rw [List.flatMap_eq_nil_iff]
  intro td _
  have hnil : db.transactions.filter
      (fun t => decide (t.id = td.transaction_id) && inToday d t) = [] := by
    rw [List.filter_eq_nil_iff]
    intro t ht
    have := h t ht
    rw [← inToday_iff] at this
    simp [this]
  rw [hnil]
  rfl

theorem queryBestSeller_eq_none (db : Tables) (d : Int) (h : soldToday db d = []) :
    queryBestSeller db d = none := by
  unfold queryBestSeller
  rw [h]
  rfl

theorem getSummaryToday_ok (env : SummaryEnv) (db : Tables) (d : Int)
    (h1 : env.summaryErr = none) (h2 : env.summaryBestErr = none) :
    ∃ s, GetSummaryToday env db d = .ok s ∧
      s.TotalRevenue = (querySummary db d).1 ∧ s.TotalTransaksi = (querySummary db d).2 ∧
      (queryBestSeller db d = none → s.ProdukTerlaris.Name = "") := by
  unfold GetSummaryToday
  rw [h1]
  simp only [h2]
  cases hq : queryBestSeller db d with
  | none => exact ⟨_, rfl, rfl, rfl, fun _ => rfl⟩
  | some r => exact ⟨_, rfl, rfl, rfl, fun hn => by cases hn⟩

/-- C6: when neither query of `GetSummaryToday` faults, it returns without error
`TotalRevenue` = the sum of `total_amount` and `TotalTransaksi` = the number of exactly the
stored transactions whose `created_at` lies in the half-open window from the start of today
to the start of tomorrow; a transaction stamped exactly at the start of tomorrow changes
neither figure, one stamped exactly at the start of today counts; and when no transaction
lies in the window the result is revenue 0, count 0 and a best seller with empty name. -/
theorem getSummaryToday_window (env : SummaryEnv) (db : Tables) (d : Int)
    (h1 : env.summaryErr = none) (h2 : env.summaryBestErr = none) :
    ∃ s, GetSummaryToday env db d = .ok s ∧
      s.TotalRevenue =
        (db.transactions.map (fun t => if InWindow d t then t.total_amount else 0)).sum ∧
      s.TotalTransaksi = Int.ofNat (db.transactions.countP (fun t => decide (InWindow d t))) ∧
      (∀ t : TransactionRow, t.created_at = startOfDay (d + 1) →
        ∃ s2, GetSummaryToday env { db with transactions := t :: db.transactions } d = .ok s2 ∧
          s2.TotalRevenue = s.TotalRevenue ∧ s2.TotalTransaksi = s.TotalTransaksi) ∧
      (∀ t : TransactionRow, t.created_at = startOfDay d →
        ∃ s2, GetSummaryToday env { db with transactions := t :: db.transactions } d = .ok s2 ∧
          s2.TotalRevenue = t.total_amount + s.TotalRevenue ∧
          s2.TotalTransaksi = s.TotalTransaksi + 1) ∧
      ((∀ t ∈ db.transactions, ¬ InWindow d t) →
        s = { TotalRevenue := 0, TotalTransaksi := 0, ProdukTerlaris := { Name := "" } }) := by
  obtain ⟨s, hs, hrev, hcnt, hname⟩ := getSummaryToday_ok env db d h1 h2
  rw [querySummary_eq] at hrev hcnt
  simp only at hrev hcnt
  refine ⟨s, hs, hrev, hcnt, ?_, ?_, ?_⟩
  · intro t ht
    obtain ⟨s2, hs2, hrev2, hcnt2, _⟩ :=
      getSummaryToday_ok env { db with transactions := t :: db.transactions } d h1 h2
    rw [querySummary_eq] at hrev2 hcnt2
    have hout : ¬ InWindow d t := by
      unfold InWindow; rw [ht]; omega
    refine ⟨s2, hs2, ?_, ?_⟩
    · rw [hrev2, hrev]; simp [hout]
    · rw [hcnt2, hcnt]; simp [hout]
  · intro t ht
    obtain ⟨s2, hs2, hrev2, hcnt2, _⟩ :=
      getSummaryToday_ok env { db with transactions := t :: db.transactions } d h1 h2
    rw [querySummary_eq] at hrev2 hcnt2
    have hin : InWindow d t := by
      unfold InWindow startOfDay usPerDay; rw [ht]; unfold startOfDay usPerDay; omega
    refine ⟨s2, hs2, ?_, ?_⟩
    · rw [hrev2, hrev]; simp [hin]
    · rw [hcnt2, hcnt]; simp [hin]
  · intro hnone
    have hsum : (db.transactions.map
        (fun t => if InWindow d t then t.total_amount else 0)).sum = 0 := by
      apply List.sum_eq_zero
      intro x hx
      obtain ⟨t, ht, rfl⟩ := List.mem_map.1 hx
      rw [if_neg (hnone t ht)]
    have hc : db.transactions.countP (fun t => decide (InWindow d t)) = 0 := by
      rw [List.countP_eq_zero]
      intro t ht
      simpa using hnone t ht
    have hn := hname (queryBestSeller_eq_none db d (soldToday_eq_nil db d hnone))
    rw [hsum] at hrev
    rw [hc] at hcnt
    cases s with
    | mk r c p =>
      cases p with
      | mk n =>
        simp only at hrev hcnt hn
        subst hrev hcnt hn
        rfl

/-- Witness for C6: a day without transactions. -/
theorem getSummaryToday_window_witness :
    GetSummaryToday { summaryErr := none, summaryBestErr := none, bestSellerErr := none }
        shopTables 20000 =
      .ok { TotalRevenue := 0, TotalTransaksi := 0, ProdukTerlaris := { Name := "" } } := by
  obtain ⟨s, hs, _, _, _, _, hempty⟩ := getSummaryToday_window
    { summaryErr := none, summaryBestErr := none, bestSellerErr := none } shopTables 20000
    rfl rfl
  rw [hs, hempty (by simp [shopTables])]

theorem bestOrder_total (a b : String × Int) : bestOrder a b ∨ bestOrder b a := by
  unfold bestOrder
  rcases lt_trichotomy a.2 b.2 with h | h | h
  · exact Or.inr (Or.inl h)
  · rcases le_total a.1.toList b.1.toList with hn | hn
    · exact Or.inl (Or.inr ⟨h, hn⟩)
    · exact Or.inr (Or.inr ⟨h.symm, hn⟩)
  · exact Or.inl (Or.inl h)

theorem bestOrder_trans (a b c : String × Int) (hab : bestOrder a b) (hbc : bestOrder b c) :
    bestOrder a c := by
  unfold bestOrder at *
  rcases hab with h1 | ⟨h1, n1⟩ <;> rcases hbc with h2 | ⟨h2, n2⟩
  · exact Or.inl (by omega)
  · exact Or.inl (by omega)
  · exact Or.inl (by omega)
  · exact Or.inr ⟨by omega, le_trans n1 n2⟩

theorem head_insertionSort_bestOrder (l : List (String × Int)) (hne : l ≠ []) :
    ∃ a, (l.insertionSort bestOrder).head? = some a ∧ a ∈ l ∧ ∀ b ∈ l, bestOrder a b := by
  haveI : IsTotal (String × Int) bestOrder := ⟨bestOrder_total⟩
  haveI : IsTrans (String × Int) bestOrder := ⟨bestOrder_trans⟩
  have hsorted := List.sorted_insertionSort bestOrder l
  have hperm := List.perm_insertionSort bestOrder l
  cases hs : l.insertionSort bestOrder with
  | nil =>
    rw [hs] at hperm
    exact absurd hperm.symm.eq_nil hne
  | cons a rest =>
    rw [hs] at hsorted hperm
    refine ⟨a, rfl, hperm.mem_iff.1 (List.mem_cons_self _ _), ?_⟩
    intro b hb
    rcases List.mem_cons.1 (hperm.mem_iff.2 hb) with heq | hin
    · subst heq
      rcases bestOrder_total b b with h | h <;> exact h
    · exact List.rel_of_sorted_cons hsorted b hin

theorem mem_groupByName (rows : List (String × Int)) (r : String × Int) :
    r ∈ groupByName rows ↔ r.1 ∈ rows.map (fun x => x.1) ∧ r.2 = groupQty rows r.1 := by
  unfold groupByName
  rw [List.mem_map]
  constructor
  · rintro ⟨name, hname, rfl⟩
    exact ⟨List.mem_dedup.1 hname, rfl⟩
  · rintro ⟨h1, h2⟩
    refine ⟨r.1, List.mem_dedup.2 h1, ?_⟩
    rw [← h2]

theorem queryBestSeller_best (db : Tables) (d : Int) (hne : soldToday db d ≠ []) :
    ∃ name qty, queryBestSeller db d = some (name, qty) ∧
      name ∈ (soldToday db d).map (fun r => r.1) ∧
      qty = groupQty (soldToday db d) name ∧
      ∀ other ∈ (soldToday db d).map (fun r => r.1),
        groupQty (soldToday db d) other ≤ qty ∧
          (groupQty (soldToday db d) other = qty → name ≤ other) := by
  have hg : groupByName (soldToday db d) ≠ [] := by
    cases hrows : soldToday db d with
    | nil => exact absurd hrows hne
    | cons r rest =>
      intro hnil
      have hmem : (r.1, groupQty (r :: rest) r.1) ∈ groupByName (r :: rest) :=
        (mem_groupByName _ _).2 ⟨by simp, rfl⟩
      rw [hnil] at hmem
      cases hmem
  obtain ⟨a, hhead, hmem, hbest⟩ := head_insertionSort_bestOrder _ hg
  obtain ⟨hname, hqty⟩ := (mem_groupByName _ _).1 hmem
  refine ⟨a.1, a.2, hhead, hname, hqty, ?_⟩
  intro other hother
  have hrel := hbest (other, groupQty (soldToday db d) other)
    ((mem_groupByName _ _).2 ⟨hother, rfl⟩)
  unfold bestOrder at hrel
  simp only at hrel
  constructor
  · rcases hrel with h | ⟨h, _⟩
    · exact le_of_lt h
    · exact le_of_eq h.symm
  · intro heq
    rcases hrel with h | ⟨_, h⟩
    · omega
    · exact String.le_iff_toList_le.2 h

theorem mem_soldToday (db : Tables) (d : Int) (name : String) (qty : Int) :
    (name, qty) ∈ soldToday db d ↔
      ∃ td ∈ db.transaction_details, ∃ t ∈ db.transactions, ∃ p ∈ db.product,
        t.id = td.transaction_id ∧ InWindow d t ∧ p.id = td.product_id ∧
          p.name = name ∧ td.quantity = qty := by
  unfold soldToday
  simp only [List.mem_flatMap, List.mem_filter, List.mem_map, Bool.and_eq_true,
    decide_eq_true_iff, inToday_iff, Prod.mk.injEq]
  constructor
  · rintro ⟨td, htd, t, ⟨ht, hid, hwin⟩, p, ⟨hp, hpid⟩, hn, hq⟩
    exact ⟨td, htd, t, ht, p, hp, hid, hwin, hpid, hn, hq⟩
  · rintro ⟨td, htd, t, ht, p, hp, hid, hwin, hpid, hn, hq⟩
    exact ⟨td, htd, t, ⟨ht, hid, hwin⟩, p, ⟨hp, hpid⟩, hn, hq⟩

/-- C7: when its query does not fault, `GetBestSellerToday` works on the detail rows of
today's transactions paired with the name of their product: with no such row it returns
("", 0) and no error; otherwise it returns, with no error, a name that occurs among them
together with the sum of the quantities sold under that name, no name has a greater sum, and
every name with the same sum is lexicographically at least the returned one. -/
theorem getBestSellerToday_best (env : SummaryEnv) (db : Tables) (d : Int)
    (h : env.bestSellerErr = none) :
    (∀ name qty, (name, qty) ∈ soldToday db d ↔
        ∃ td ∈ db.transaction_details, ∃ t ∈ db.transactions, ∃ p ∈ db.product,
          t.id = td.transaction_id ∧ InWindow d t ∧ p.id = td.product_id ∧
            p.name = name ∧ td.quantity = qty) ∧
      (soldToday db d = [] → GetBestSellerToday env db d = ("", 0, none)) ∧
      (soldToday db d ≠ [] →
        ∃ name qty, GetBestSellerToday env db d = (name, qty, none) ∧
          name ∈ (soldToday db d).map (fun r => r.1) ∧
          qty = (((soldToday db d).filter (fun r => decide (r.1 = name))).map
            (fun r => r.2)).sum ∧
          ∀ other ∈ (soldToday db d).map (fun r => r.1),
            groupQty (soldToday db d) other ≤ qty ∧
              (groupQty (soldToday db d) other = qty → name ≤ other)) := by
  refine ⟨mem_soldToday db d, ?_, ?_⟩
  · intro hnil
    unfold GetBestSellerToday
    rw [h, queryBestSeller_eq_none db d hnil]
  · intro hne
    obtain ⟨name, qty, hq, h1, h2, h3⟩ := queryBestSeller_best db d hne
    refine ⟨name, qty, ?_, h1, h2, h3⟩
    unfold GetBestSellerToday
    rw [h, hq]

/-- Witness for C7: today products "Mie Goreng Super" and "Nasi Goreng Super" both sold 2
units and "Jeruk Panas" 1 unit (its 9 units of yesterday do not count): the tie goes to the
lexicographically smaller "Mie Goreng Super". -/
theorem getBestSellerToday_best_witness :
    GetBestSellerToday { summaryErr := none, summaryBestErr := none, bestSellerErr := none }
        salesTables 20000 = ("Mie Goreng Super", 2, none) ∧
      ∃ name qty,
        GetBestSellerToday { summaryErr := none, summaryBestErr := none, bestSellerErr := none }
          salesTables 20000 = (name, qty, none) ∧
        name ∈ (soldToday salesTables 20000).map (fun r => r.1) ∧
        qty = (((soldToday salesTables 20000).filter (fun r => decide (r.1 = name))).map
          (fun r => r.2)).sum ∧
        ∀ other ∈ (soldToday salesTables 20000).map (fun r => r.1),
          groupQty (soldToday salesTables 20000) other ≤ qty ∧
            (groupQty (soldToday salesTables 20000) other = qty → name ≤ other) :=
  ⟨by decide,
   (getBestSellerToday_best { summaryErr := none, summaryBestErr := none, bestSellerErr := none }
      salesTables 20000 rfl).2.2 (by decide)⟩

/-- C8 is not met by the code: the revenue/count query succeeds and the best-seller query
faults. The handler itself swallows the fault of its `GetBestSellerToday` call, but
`GetSummaryToday` issues the same best-seller query on its own and returns its fault, so the
handler answers 500 instead of 200 with an empty best seller. -/
theorem summaryToday_best_fault_answers_500 :
    ({ summaryErr := none, summaryBestErr := some "context deadline exceeded",
       bestSellerErr := some "context deadline exceeded" } : SummaryEnv).summaryErr = none ∧
      SummaryTodayHandler "GET"
          { summaryErr := none, summaryBestErr := some "context deadline exceeded",
            bestSellerErr := some "context deadline exceeded" } salesTables 20000 =
        { status := 500,
          body := .text ("failed to get today summary: " ++
            "query produk terlaris today: context deadline exceeded") } := by
  constructor
  · rfl
  · rfl

/-- Supporting fact on the summary handler: once `GetSummaryToday` has succeeded, the
handler answers 200 with the figures of the revenue/count query and swallows a fault of its
own `GetBestSellerToday` call (empty name, quantity 0), passing on what that call returned
otherwise; a fault of the duplicate best-seller query inside `GetSummaryToday` is what
surfaces as status 500. -/
theorem summaryTodayHandler_tolerates (env : SummaryEnv) (db : Tables) (d : Int)
    (h1 : env.summaryErr = none) :
    (env.summaryBestErr = none →
        ∃ nama qty,
          SummaryTodayHandler "GET" env db d =
            { status := 200,
              body := .summary (querySummary db d).1 (querySummary db d).2 nama qty } ∧
          (env.bestSellerErr ≠ none → nama = "" ∧ qty = 0) ∧
          (env.bestSellerErr = none → GetBestSellerToday env db d = (nama, qty, none))) ∧
      (∀ e, env.summaryBestErr = some e →
        SummaryTodayHandler "GET" env db d =
          { status := 500,
            body := .text ("failed to get today summary: " ++
              ("query produk terlaris today" ++ ": " ++ e)) }) := by
  constructor
  · intro h2
    obtain ⟨s, hs, hrev, hcnt, _⟩ := getSummaryToday_ok env db d h1 h2
    unfold SummaryTodayHandler
    rw [if_neg (by decide), hs]
    simp only
    rw [hrev, hcnt]
    cases hb : env.bestSellerErr with
    | some e =>
      refine ⟨"", 0, ?_, fun _ => ⟨rfl, rfl⟩, fun hn => by cases hn⟩
      unfold GetBestSellerToday
      rw [hb]
      rfl
    | none =>
      cases hq : queryBestSeller db d with
      | none =>
        refine ⟨"", 0, ?_, fun hn => absurd rfl hn, fun _ => ?_⟩
        · unfold GetBestSellerToday
          rw [hb, hq]
          rfl
        · unfold GetBestSellerToday
          rw [hb, hq]
      | some r =>
        obtain ⟨name, qty⟩ := r
        refine ⟨name, qty, ?_, fun hn => absurd rfl hn, fun _ => ?_⟩
        · unfold GetBestSellerToday
          rw [hb, hq]
          rfl
        · unfold GetBestSellerToday
          rw [hb, hq]
  · intro e h2
    unfold SummaryTodayHandler GetSummaryToday
    rw [if_neg (by decide), h1]
    simp only [h2]
    rfl

/-- Instance of the supporting fact: both queries of `GetSummaryToday` succeed and the
separate best-seller call faults; the handler answers 200 with an empty best seller. -/
theorem summaryTodayHandler_tolerates_witness :
    SummaryTodayHandler "GET"
        { summaryErr := none, summaryBestErr := none,
          bestSellerErr := some "context deadline exceeded" } salesTables 20000 =
      { status := 200, body := .summary 93000 2 "" 0 } := by
  obtain ⟨nama, qty, hresp, hfault, _⟩ :=
    (summaryTodayHandler_tolerates
      { summaryErr := none, summaryBestErr := none,
        bestSellerErr := some "context deadline exceeded" } salesTables 20000 rfl).1 rfl
  obtain ⟨hn, hq⟩ := hfault (by simp)
  rw [hresp, hn, hq]
  rfl

/-- C9 fails on the code: after `DELETE /api/produk/1` the list has two entries, so the next
`POST /api/produk` assigns id `len + 1 = 3`, the id of an entry already in the list; the
same happens in the category store. -/
theorem create_after_delete_duplicates_id :
    runProduk produk
        [.delete (some 1), .create (some { ID := 0, Nama := "Teh", Harga := 3000, Stok := 10 })] =
      [{ ID := 2, Nama := "Nasi Goreng Super", Harga := 22000, Stok := 100 },
       { ID := 3, Nama := "Jeruk Panas", Harga := 5000, Stok := 80 },
       { ID := 3, Nama := "Teh", Harga := 3000, Stok := 10 }] ∧
      ¬ ((runProduk produk
        [.delete (some 1),
         .create (some { ID := 0, Nama := "Teh", Harga := 3000, Stok := 10 })]).map
          (fun p => p.ID)).Nodup ∧
      runCategory categories
        [.delete (some 1), .create (some { ID := 0, Name := "Drink", Description := "x" })] =
      [{ ID := 2, Name := "Beverage", Description := "Pelepa dahaga" },
       { ID := 3, Name := "Snack", Description := "Penunda lapar" },
       { ID := 3, Name := "Drink", Description := "x" }] ∧
      ¬ ((runCategory categories
        [.delete (some 1),
         .create (some { ID := 0, Name := "Drink", Description := "x" })]).map
          (fun c => c.ID)).Nodup := by
  refine ⟨by rfl, by decide, by rfl, by decide⟩

theorem indexOfID_none {α : Type} (getID : α → Int) (id : Int) :
    ∀ (list : List α) (i : Nat), (∀ p ∈ list, getID p ≠ id) →
      indexOfID getID id i list = none := by
  intro list
  induction list with
  | nil => intro i _; rfl
  | cons p rest ih =>
    intro i h
    unfold indexOfID
    rw [if_neg (h p (List.mem_cons_self _ _))]
    exact ih (i + 1) (fun q hq => h q (List.mem_cons_of_mem _ hq))

theorem indexOfID_some {α : Type} (getID : α → Int) (id : Int) :
    ∀ (list : List α) (i : Nat), (∃ p ∈ list, getID p = id) →
      ∃ pre x post, list = pre ++ x :: post ∧ getID x = id ∧
        (∀ p ∈ pre, getID p ≠ id) ∧ indexOfID getID id i list = some (i + pre.length) := by
  intro list
  induction list with
  | nil => rintro i ⟨p, hp, _⟩; cases hp
  | cons p rest ih =>
    intro i hex
    by_cases hp : getID p = id
    · refine ⟨[], p, rest, rfl, hp, by simp, ?_⟩
      unfold indexOfID
      rw [if_pos hp]
      rfl
    · have hex2 : ∃ q ∈ rest, getID q = id := by
        obtain ⟨q, hq, hqid⟩ := hex
        rcases List.mem_cons.1 hq with heq | hin
        · subst heq; exact absurd hqid hp
        · exact ⟨q, hin, hqid⟩
      obtain ⟨pre, x, post, h1, h2, h3, h4⟩ := ih (i + 1) hex2
      refine ⟨p :: pre, x, post, by rw [h1]; rfl, h2, ?_, ?_⟩
      · intro q hq
        rcases List.mem_cons.1 hq with heq | hin
        · subst heq; exact hp
        · exact h3 q hin
      · unfold indexOfID
        rw [if_neg hp, h4, List.length_cons]
        congr 1
        omega

theorem find_split {α : Type} (getID : α → Int) (id : Int) (pre post : List α) (x : α)
    (hx : getID x = id) (hpre : ∀ p ∈ pre, getID p ≠ id) :
    (pre ++ x :: post).find? (fun p => decide (getID p = id)) = some x := by
  induction pre with
  | nil => simp [List.find?_cons, hx]
  | cons a rest ih =>
    have ha : getID a ≠ id := hpre a (List.mem_cons_self _ _)
    rw [List.cons_append, List.find?_cons]
    simp only [ha, decide_False]
    exact ih (fun p hp => hpre p (List.mem_cons_of_mem _ hp))

theorem find_none {α : Type} (getID : α → Int) (id : Int) (list : List α)
    (h : ∀ p ∈ list, getID p ≠ id) :
    list.find? (fun p => decide (getID p = id)) = none := by
  rw [List.find?_eq_none]
  intro p hp
  simpa using h p hp

theorem set_split {α : Type} (pre post : List α) (x y : α) :
    (pre ++ x :: post).set pre.length y = pre ++ y :: post := by
  simp

theorem remove_split {α : Type} (pre post : List α) (x : α) :
    (pre ++ x :: post).take pre.length ++ (pre ++ x :: post).drop (pre.length + 1) =
      pre ++ post := by
  simp

/-- C10: in the in-memory product store and in the category store, for an id that no entry
of the list has, get, update (with a decoded body) and delete answer 404 and leave the list
as it is; for an id that some entry has, with `x` the first entry carrying it, get answers
200 with `x`, update answers 200 and puts the body with its id forced to the path id in the
place of `x`, and delete answers 200 and removes `x`; all other entries keep their values
and their order. -/
theorem crud_by_id :
    (∀ (list : List Produk) (id : Int) (body : Produk), (∀ p ∈ list, p.ID ≠ id) →
        getProdukByID list (some id) = { status := 404, body := .text "Produk belum ada" } ∧
        updateProduk list (some id) (some body) =
          ({ status := 404, body := .text "Produk belum ada" }, list) ∧
        deleteProduk list (some id) = ({ status := 404, body := .text "Produk belum ada" }, list)) ∧
      (∀ (list : List Produk) (id : Int) (body : Produk), (∃ p ∈ list, p.ID = id) →
        ∃ pre x post, list = pre ++ x :: post ∧ x.ID = id ∧ (∀ p ∈ pre, p.ID ≠ id) ∧
          getProdukByID list (some id) = { status := 200, body := .entry x } ∧
          updateProduk list (some id) (some body) =
            ({ status := 200, body := .entry { body with ID := id } },
              pre ++ { body with ID := id } :: post) ∧
          deleteProduk list (some id) =
            ({ status := 200, body := .message "sukses delete" }, pre ++ post)) ∧
      (∀ (list : List Category) (id : Int) (body : Category), (∀ p ∈ list, p.ID ≠ id) →
        getCategoryByID list (some id) = { status := 404, body := .text "Category belum ada" } ∧
        updateCategory list (some id) (some body) =
          ({ status := 404, body := .text "Category belum ada" }, list) ∧
        deleteCategory list (some id) = ({ status := 404, body := .text "Category belum ada" }, list)) ∧
      (∀ (list : List Category) (id : Int) (body : Category), (∃ p ∈ list, p.ID = id) →
        ∃ pre x post, list = pre ++ x :: post ∧ x.ID = id ∧ (∀ p ∈ pre, p.ID ≠ id) ∧
          getCategoryByID list (some id) = { status := 200, body := .entry x } ∧
          updateCategory list (some id) (some body) =
            ({ status := 200, body := .entry { body with ID := id } },
              pre ++ { body with ID := id } :: post) ∧
          deleteCategory list (some id) =
            ({ status := 200, body := .message "sukses delete" }, pre ++ post)) := by
  refine ⟨?_, ?_, ?_, ?_⟩
  · intro list id body hnone
    have hidx := indexOfID_none Produk.ID id list 0 hnone
    refine ⟨?_, ?_, ?_⟩
    · unfold getProdukByID; simp only [find_none Produk.ID id list hnone]
    · unfold updateProduk; simp only [hidx]
    · unfold deleteProduk; simp only [hidx]
  · intro list id body hsome
    obtain ⟨pre, x, post, hlist, hx, hpre, hidx⟩ := indexOfID_some Produk.ID id list 0 hsome
    rw [zero_add] at hidx
    refine ⟨pre, x, post, hlist, hx, hpre, ?_, ?_, ?_⟩
    · unfold getProdukByID
      simp only [hlist, find_split Produk.ID id pre post x hx hpre]
    · unfold updateProduk
      simp only [hidx]
      rw [hlist, set_split]
    · unfold deleteProduk
      simp only [hidx]
      rw [hlist, remove_split]
  · intro list id body hnone
    have hidx := indexOfID_none Category.ID id list 0 hnone
    refine ⟨?_, ?_, ?_⟩
    · unfold getCategoryByID; simp only [find_none Category.ID id list hnone]
    · unfold updateCategory; simp only [hidx]
    · unfold deleteCategory; simp only [hidx]
  · intro list id body hsome
    obtain ⟨pre, x, post, hlist, hx, hpre, hidx⟩ := indexOfID_some Category.ID id list 0 hsome
    rw [zero_add] at hidx
    refine ⟨pre, x, post, hlist, hx, hpre, ?_, ?_, ?_⟩
    · unfold getCategoryByID
      simp only [hlist, find_split Category.ID id pre post x hx hpre]
    · unfold updateCategory
      simp only [hidx]
      rw [hlist, set_split]
    · unfold deleteCategory
      simp only [hidx]
      rw [hlist, remove_split]

/-- Witness for C10: GET on id 999 against the initial three products answers 404. -/
theorem crud_by_id_witness :
    getProdukByID produk (some 999) = { status := 404, body := .text "Produk belum ada" } :=
  (crud_by_id.1 produk 999 { ID := 0, Nama := "", Harga := 0, Stok := 0 }
    (by decide)).1

theorem foldl_append_flatMap {α β : Type} (f : α → List β) (l : List α) :
    ∀ acc : List β, l.foldl (fun args d => args ++ f d) acc = acc ++ l.flatMap f := by
  induction l with
  | nil => intro acc; simp
  | cons d rest ih =>
    intro acc
    rw [List.foldl_cons, ih, List.flatMap_cons, List.append_assoc]

theorem bulkArgs_eq (tid : Int) (details : List TransactionDetail) :
    bulkArgs tid details =
      details.flatMap (fun d => [tid, d.ProductID, d.Quantity, d.Subtotal]) := by
  unfold bulkArgs
  rw [foldl_append_flatMap]
  rfl

theorem bulkInsertLoop_args (tid : Int) :
    ∀ (details : List TransactionDetail) (i : Nat) (sb : String) (args : List Int),
      (bulkInsertLoop tid i details (sb, args)).2 =
        args ++ details.flatMap (fun d => [tid, d.ProductID, d.Quantity, d.Subtotal]) := by
  intro details
  induction details with
  | nil => intro i sb args; simp [bulkInsertLoop]
  | cons d rest ih =>
    intro i sb args
    rw [bulkInsertLoop, ih, List.flatMap_cons, List.append_assoc]

theorem bulkArgs_length (tid : Int) (details : List TransactionDetail) :
    (bulkArgs tid details).length = 4 * details.length := by
  rw [bulkArgs_eq]
  induction details with
  | nil => rfl
  | cons d rest ih =>
    rw [List.flatMap_cons, List.length_append, ih, List.length_cons]
    simp only [List.length_cons, List.length_nil]
    omega

theorem bulkArgs_getElem (tid : Int) :
    ∀ (details : List TransactionDetail) (i : Nat) (d : TransactionDetail),
      details[i]? = some d →
      ∀ j : Nat, (bulkArgs tid details)[4 * i + j]? =
        if j < 4 then [tid, d.ProductID, d.Quantity, d.Subtotal][j]?
        else (bulkArgs tid (details.drop (i + 1)))[j - 4]? := by
  intro details
  induction details with
  | nil => intro i d h; simp at h
  | cons d0 rest ih =>
    intro i d h j
    rw [bulkArgs_eq, List.flatMap_cons]
    cases i with
    | zero =>
      simp only [List.getElem?_cons_zero, Option.some.injEq] at h
      subst h
      by_cases hj : j < 4
      · rw [if_pos hj, Nat.mul_zero, Nat.zero_add, List.getElem?_append_left (by simpa using hj)]
      · rw [if_neg hj, Nat.mul_zero, Nat.zero_add,
          List.getElem?_append_right (by simpa using hj), bulkArgs_eq]
        rfl
    | succ k =>
      simp only [List.getElem?_cons_succ] at h
      have := ih k d h j
      rw [List.getElem?_append_right (by simp; omega)]
      rw [bulkArgs_eq] at this
      simp only [List.length_cons, List.length_nil, List.drop_succ_cons]
      rw [show 4 * (k + 1) + j - (0 + 1 + 1 + 1 + 1) = 4 * k + j by omega]
      exact this

theorem placeholder_bulkArgs (tid : Int) (details : List TransactionDetail) (i : Nat)
    (d : TransactionDetail) (h : details[i]? = some d) :
    placeholder (bulkArgs tid details) (4 * i + 1) = some tid ∧
      placeholder (bulkArgs tid details) (4 * i + 2) = some d.ProductID ∧
      placeholder (bulkArgs tid details) (4 * i + 3) = some d.Quantity ∧
      placeholder (bulkArgs tid details) (4 * i + 4) = some d.Subtotal := by
  have hg := bulkArgs_getElem tid details i d h
  unfold placeholder
  refine ⟨?_, ?_, ?_, ?_⟩
  · rw [if_neg (by omega), List.get?_eq_getElem?]
    have := hg 0
    simpa using this
  · rw [if_neg (by omega), List.get?_eq_getElem?]
    have := hg 1
    simpa using this
  · rw [if_neg (by omega), List.get?_eq_getElem?]
    have := hg 2
    simpa using this
  · rw [if_neg (by omega), List.get?_eq_getElem?]
    have := hg 3
    simpa using this

theorem bulkTuples_getElem (details : List TransactionDetail) (i : Nat)
    (h : i < details.length) :
    (bulkTuples details)[i]? = some [4 * i + 1, 4 * i + 2, 4 * i + 3, 4 * i + 4] := by
  unfold bulkTuples
  rw [List.getElem?_map, List.getElem?_range h]
  simp only [Option.map_some', bulkTuple, cols, Option.some.injEq, List.cons.injEq, and_true]
  omega

theorem flatten_map_bulkTuple (n : Nat) :
    ((List.range n).map bulkTuple).flatten = List.range' 1 (4 * n) := by
  induction n with
  | zero => rfl
  | succ k ih =>
    rw [List.range_succ, List.map_append, List.flatten_append, ih]
    have h4 : 4 * (k + 1) = 4 + 4 * k := by omega
    rw [h4, ← List.range'_append_1 1 (4 * k) 4]
    congr 1
    simp only [List.map_cons, List.map_nil, List.flatten_cons, List.flatten_nil,
      List.append_nil, bulkTuple, cols]
    have e1 : 1 + 4 * k = k * 4 + 1 := by omega
    rw [e1]
    rfl

theorem allSome_map_some {α : Type} (l : List α) : (l.map some).allSome = some l := by
  unfold List.allSome
  induction l with
  | nil => rfl
  | cons a rest ih =>
    rw [List.map_cons, List.mapM_cons, ih]
    rfl

theorem tupleRow_bulk (tid : Int) (details : List TransactionDetail) (k : Nat)
    (d : TransactionDetail) (id : Int) (h : details[k]? = some d) :
    tupleRow (bulkArgs tid details) id [4 * k + 1, 4 * k + 2, 4 * k + 3, 4 * k + 4] =
      some { id := id, transaction_id := tid, product_id := d.ProductID,
             quantity := d.Quantity, subtotal := d.Subtotal } := by
  obtain ⟨h1, h2, h3, h4⟩ := placeholder_bulkArgs tid details k d h
  unfold tupleRow
  simp only [h1, h2, h3, h4]

theorem execBulkInsert_bulk (detailID : Nat → Int) (tid : Int)
    (details : List TransactionDetail) :
    execBulkInsert detailID (bulkTuples details) (bulkArgs tid details) =
      some (detailRows detailID tid details) := by
  unfold execBulkInsert
  rw [← allSome_map_some (detailRows detailID tid details)]
  congr 1
  apply List.ext_getElem?
  intro k
  unfold detailRows
  simp only [List.getElem?_map, List.getElem?_enum]
  by_cases hk : k < details.length
  · rw [bulkTuples_getElem details k hk]
    have hd : details[k]? = some details[k] := List.getElem?_eq_getElem hk
    rw [hd]
    simp only [Option.map_some']
    rw [tupleRow_bulk tid details k details[k] (detailID k) hd]
  · have h1 : details[k]? = none := List.getElem?_eq_none (by omega)
    have h2 : (bulkTuples details)[k]? = none :=
      List.getElem?_eq_none (by unfold bulkTuples; simp; omega)
    rw [h1, h2]
    rfl

theorem bulkChunk_eq (i : Nat) :
    bulkChunk i = (if 0 < i then "," else "") ++ tupleText i := by
  unfold bulkChunk tupleText cols
  simp only
  have e1 : i * 4 + 1 = 4 * i + 1 := by omega
  rw [e1]

theorem renderTuple_bulkTuple (i : Nat) : renderTuple (bulkTuple i) = tupleText i := by
  unfold renderTuple bulkTuple tupleText cols
  have e1 : i * 4 + 1 = 4 * i + 1 := by omega
  simp only [e1, List.map_cons, List.map_nil, String.intercalate,
    String.intercalate.go]
  apply String.ext
  simp [String.data_append]

theorem intercalate_go_append (a b sep : String) :
    ∀ l : List String,
      String.intercalate.go (a ++ b) sep l = a ++ String.intercalate.go b sep l := by
  intro l
  induction l generalizing b with
  | nil => rfl
  | cons x rest ih =>
    simp only [String.intercalate.go]
    rw [String.append_assoc, String.append_assoc, ih, String.append_assoc]

theorem bulkInsertLoop_text (tid : Int) :
    ∀ (details : List TransactionDetail) (i : Nat) (sb : String) (args : List Int), 0 < i →
      (bulkInsertLoop tid i details (sb, args)).1 =
        String.intercalate.go sb "," ((List.range' i details.length).map tupleText) := by
  intro details
  induction details with
  | nil => intro i sb args _; rfl
  | cons d rest ih =>
    intro i sb args hi
    rw [bulkInsertLoop, ih (i + 1) _ _ (Nat.succ_pos _), bulkChunk_eq, if_pos hi]
    simp only [List.length_cons, List.range'_succ, List.map_cons, String.intercalate.go]
    rw [String.append_assoc]

theorem bulkInsertBuild_text (tid : Int) (details : List TransactionDetail) :
    (bulkInsertBuild tid details).1 =
      "INSERT INTO transaction_details (transaction_id, product_id, quantity, subtotal) VALUES "
        ++ String.intercalate "," ((List.range details.length).map tupleText) := by
  unfold bulkInsertBuild
  cases details with
  | nil => rfl
  | cons d rest =>
    rw [bulkInsertLoop, bulkInsertLoop_text tid rest 1 _ _ (by decide), bulkChunk_eq,
      if_neg (by decide), List.range_eq_range']
    simp only [List.length_cons, List.range'_succ, List.map_cons, String.intercalate]
    rw [intercalate_go_append]
    congr 1

theorem bulkStatement_eq (details : List TransactionDetail) :
    bulkStatement details =
      "INSERT INTO transaction_details (transaction_id, product_id, quantity, subtotal) VALUES "
        ++ String.intercalate "," ((List.range details.length).map tupleText) := by
  unfold bulkStatement bulkTuples
  rw [List.map_map]
  congr 2
  apply List.map_congr_left
  intro i _
  exact renderTuple_bulkTuple i

theorem detailRows_getElem (detailID : Nat → Int) (tid : Int)
    (details : List TransactionDetail) (k : Nat) (d : TransactionDetail)
    (h : details[k]? = some d) :
    (detailRows detailID tid details)[k]? =
      some { id := detailID k, transaction_id := tid, product_id := d.ProductID,
             quantity := d.Quantity, subtotal := d.Subtotal } := by
  unfold detailRows
  rw [List.getElem?_map, List.getElem?_enum, h]
  rfl

/-- C11: for every non-empty list of `n` details (the builder runs only then), the bulk
insert builder produces the statement text with exactly `n` value tuples, separated by
commas, the tuple at position `i` (from 0) being `($4i+1,$4i+2,$4i+3,$4i+4)`, so that the
placeholders read in order are 1, 2, ..., 4n, each once; the argument list has length `4n`
and placeholders `4i+1 .. 4i+4` are bound to the header's transaction id and the product id,
quantity and subtotal of the detail at position `i`; executing the statement inserts, for
each detail in order, one row stamped with the header's id and carrying that detail's values,
and these are the rows a successful `CreateTransaction` appends to `transaction_details`. -/
theorem bulkInsert_builder (tid : Int) (detailID : Nat → Int)
    (details : List TransactionDetail) (_hne : details ≠ []) :
    (bulkInsertBuild tid details).1 =
        "INSERT INTO transaction_details (transaction_id, product_id, quantity, subtotal) VALUES " ++
          String.intercalate "," ((List.range details.length).map tupleText) ∧
      (bulkInsertBuild tid details).1 = bulkStatement details ∧
      (bulkTuples details).length = details.length ∧
      (∀ i, i < details.length →
        (bulkTuples details)[i]? = some [4 * i + 1, 4 * i + 2, 4 * i + 3, 4 * i + 4]) ∧
      (bulkTuples details).flatten = (List.range (4 * details.length)).map (fun k => k + 1) ∧
      (bulkInsertBuild tid details).2 = bulkArgs tid details ∧
      (bulkArgs tid details).length = 4 * details.length ∧
      (∀ (i : Nat) (d : TransactionDetail), details[i]? = some d →
        placeholder (bulkArgs tid details) (4 * i + 1) = some tid ∧
          placeholder (bulkArgs tid details) (4 * i + 2) = some d.ProductID ∧
          placeholder (bulkArgs tid details) (4 * i + 3) = some d.Quantity ∧
          placeholder (bulkArgs tid details) (4 * i + 4) = some d.Subtotal) ∧
      execBulkInsert detailID (bulkTuples details) (bulkArgs tid details) =
        some (detailRows detailID tid details) ∧
      (∀ (k : Nat) (d : TransactionDetail), details[k]? = some d →
        (detailRows detailID tid details)[k]? =
          some { id := detailID k, transaction_id := tid, product_id := d.ProductID,
                 quantity := d.Quantity, subtotal := d.Subtotal }) ∧
      (∀ (env : TxEnv) (db published : Tables) (items : List CheckoutItem) (t : Transaction),
        CreateTransaction env db items = (.ok t, published) →
        published.transaction_details =
          db.transaction_details ++ detailRows env.detailID t.ID t.Details) := by
  refine ⟨bulkInsertBuild_text tid details, ?_, ?_, bulkTuples_getElem details, ?_, ?_,
    bulkArgs_length tid details, placeholder_bulkArgs tid details,
    execBulkInsert_bulk detailID tid details, detailRows_getElem detailID tid details, ?_⟩
  · rw [bulkInsertBuild_text, bulkStatement_eq]
  · unfold bulkTuples
    rw [List.length_map, List.length_range]
  · unfold bulkTuples
    rw [flatten_map_bulkTuple, List.range'_eq_map_range]
    apply List.map_congr_left
    intro k _
    omega
  · unfold bulkInsertBuild
    rw [bulkInsertLoop_args, bulkArgs_eq, List.nil_append]
  · intro env db published items t h
    obtain ⟨htx, _, _⟩ := createTransaction_ok h
    obtain ⟨ds, _, hid, hdet, _, _, _, rows, hexec, hrows⟩ := createTransactionTx_ok htx
    rw [execBulkInsert_bulk] at hexec
    injection hexec with hexec
    rw [hrows, ← hexec, hid, hdet]

/-- Witness for C11: two details under header 7. -/
theorem bulkInsert_builder_witness :
    bulkInsertBuild 7
        [{ ID := 0, TransactionID := 7, ProductID := 1, ProductName := "Mie Goreng Super",
           Quantity := 2, Subtotal := 44000 },
         { ID := 0, TransactionID := 7, ProductID := 3, ProductName := "Jeruk Panas",
           Quantity := 1, Subtotal := 5000 }] =
      ("INSERT INTO transaction_details (transaction_id, product_id, quantity, subtotal) VALUES " ++
          "($1,$2,$3,$4),($5,$6,$7,$8)",
        [7, 1, 2, 44000, 7, 3, 1, 5000]) ∧
      execBulkInsert (fun k => Int.ofNat k + 1)
          (bulkTuples
            [{ ID := 0, TransactionID := 7, ProductID := 1, ProductName := "Mie Goreng Super",
               Quantity := 2, Subtotal := 44000 },
             { ID := 0, TransactionID := 7, ProductID := 3, ProductName := "Jeruk Panas",
               Quantity := 1, Subtotal := 5000 }])
          (bulkArgs 7
            [{ ID := 0, TransactionID := 7, ProductID := 1, ProductName := "Mie Goreng Super",
               Quantity := 2, Subtotal := 44000 },
             { ID := 0, TransactionID := 7, ProductID := 3, ProductName := "Jeruk Panas",
               Quantity := 1, Subtotal := 5000 }]) =
        some [{ id := 1, transaction_id := 7, product_id := 1, quantity := 2,
                subtotal := 44000 },
              { id := 2, transaction_id := 7, product_id := 3, quantity := 1,
                subtotal := 5000 }] :=
  ⟨by decide,
   (bulkInsert_builder 7 (fun k => Int.ofNat k + 1)
      [{ ID := 0, TransactionID := 7, ProductID := 1, ProductName := "Mie Goreng Super",
         Quantity := 2, Subtotal := 44000 },
       { ID := 0, TransactionID := 7, ProductID := 3, ProductName := "Jeruk Panas",
         Quantity := 1, Subtotal := 5000 }] (by simp)).2.2.2.2.2.2.2.2.1⟩

/-- C12: on an empty item list, when `Begin`, the header insert and `Commit` do not fault,
`CreateTransaction` succeeds; it appends exactly one `transactions` row, with total 0, leaves
`transaction_details` and every product row as they were (no bulk insert statement is
issued, whatever the store would answer to one), and returns a transaction with
`TotalAmount` 0 and no details. -/
theorem createTransaction_empty (env : TxEnv) (db : Tables)
    (hb : env.beginErr = none) (hh : env.insertHeaderErr = none)
    (hc : env.commitErr = none) :
    CreateTransaction env db [] =
      (.ok { ID := env.transactionID, TotalAmount := 0, Details := [] },
       { product := db.product,
         transactions := db.transactions ++
           [{ id := env.transactionID, total_amount := 0, created_at := env.createdAt }],
         transaction_details := db.transaction_details }) := by
  unfold CreateTransaction createTransactionTx
  rw [hb]
  simp only [checkoutLoop, hh, List.length_nil, Nat.lt_irrefl, if_false, hc]

/-- Witness for C12: an empty checkout against the sample tables, with a store that would
reject a bulk insert. -/
theorem createTransaction_empty_witness :
    CreateTransaction { TxEnv.quiet 7 0 with insertDetailsErr := some "connection reset" }
        shopTables [] =
      (.ok { ID := 7, TotalAmount := 0, Details := [] },
       { product := shopTables.product,
         transactions := [{ id := 7, total_amount := 0, created_at := 0 }],
         transaction_details := [] }) :=
  createTransaction_empty { TxEnv.quiet 7 0 with insertDetailsErr := some "connection reset" }
    shopTables rfl rfl rfl

end Kasir
